import Mathlib

/-!
Verification of the configuration-resolution and process-supervision engine
of `orchestrator.py` (a local development orchestrator that boots a tracing
sink, an optional reverse proxy, an MCP tool-server process and a foreground
client, wires them via environment variables and tears them down).

The development shallowly embeds the Python source: YAML/JSON-like values
become the inductive `Val`; Python `dict`s become insertion-ordered
association lists (Python 3.7+ dicts preserve insertion order, and
assignment to an existing key keeps its position while a new key is
appended, which `dictSet` mirrors); the process lifecycle of the `up`
command becomes an explicit event trace.
-/

/-- A Python value as deserialised from YAML (`yaml.safe_load`): the subset
of object shapes the orchestrator's configuration documents can contain. -/
inductive Val where
  | vnull
  | vbool (b : Bool)
  | vint (n : Int)
  | vstr (s : String)
  | vlist (xs : List Val)
  | vdict (entries : List (String × Val))

/-- `d.get(k)` on a Python dict modelled as an insertion-ordered
association list (keys are unique in a real dict; lookup takes the first
occurrence). -/
def dictGet : List (String × Val) → String → Option Val
  | [], _ => none
  | (k', v) :: t, k => if k' = k then some v else dictGet t k

/-- `d[k] = v` on a Python dict: replaces the value of an existing key in
place (keeping its position) or appends a new key at the end. -/
def dictSet : List (String × Val) → String → Val → List (String × Val)
  | [], k, v => [(k, v)]
  | (k', v') :: t, k, v => if k' = k then (k', v) :: t else (k', v') :: dictSet t k v

/-- `d.pop(k, None)`: the removed value (if any) and the remaining dict. -/
def dictPop : List (String × Val) → String → Option Val × List (String × Val)
  | [], _ => (none, [])
  | (k', v) :: t, k =>
    if k' = k then (some v, t)
    else
      let r := dictPop t k
      (r.1, (k', v) :: r.2)

/-- Python truthiness (`bool(x)`) for the value shapes in `Val`. -/
def pyTruthy : Val → Bool
  | Val.vnull => false
  | Val.vbool b => b
  | Val.vint n => decide (n ≠ 0)
  | Val.vstr s => decide (s ≠ "")
  | Val.vlist xs => !xs.isEmpty
  | Val.vdict es => !es.isEmpty

/-- Truthiness of `d.get(k)` (missing key gives `None`, which is falsy). -/
def pyTruthyOpt : Option Val → Bool
  | none => false
  | some v => pyTruthy v

/-- A single-quote character, used when rebuilding the Python `repr` of
strings and the orchestrator's diagnostic messages. -/
def sglq : String := String.singleton (Char.ofNat 39)

/-- An opening curly brace as a string. -/
def lcurly : String := String.singleton (Char.ofNat 123)

/-- A closing curly brace as a string. -/
def rcurly : String := String.singleton (Char.ofNat 125)

mutual
/-- Python `repr(x)` for `Val` (nested positions of `str(container)`):
strings are single-quoted, containers render their elements recursively. -/
def pyReprVal : Val → String
  | Val.vnull => "None"
  | Val.vbool true => "True"
  | Val.vbool false => "False"
  | Val.vint n => toString n
  | Val.vstr s => sglq ++ s ++ sglq
  | Val.vlist xs => "[" ++ pyReprList xs ++ "]"
  | Val.vdict es => lcurly ++ pyReprEntries es ++ rcurly

/-- Comma-separated `repr`s of the elements of a Python list. -/
def pyReprList : List Val → String
  | [] => ""
  | [x] => pyReprVal x
  | x :: y :: t => pyReprVal x ++ ", " ++ pyReprList (y :: t)

/-- Comma-separated `repr`s of the items of a Python dict. -/
def pyReprEntries : List (String × Val) → String
  | [] => ""
  | [(k, v)] => sglq ++ k ++ sglq ++ ": " ++ pyReprVal v
  | (k, v) :: y :: t => sglq ++ k ++ sglq ++ ": " ++ pyReprVal v ++ ", " ++ pyReprEntries (y :: t)
end

/-- Python `str(x)` for a `Val`: identical to `repr` except that a
top-level string is rendered without quotes. -/
def pyStrVal : Val → String
  | Val.vstr s => s
  | v => pyReprVal v

/-- Python `str(d.get(k))` — `str(None)` is `"None"`. -/
def pyStrOpt : Option Val → String
  | none => "None"
  | some v => pyStrVal v

mutual
/-- `_deep_merge` processing of one item `(k, v)` of `b`: if both the
incoming value and the current value under `k` are dicts, recurse;
otherwise the incoming value replaces the current one (`a[k] = v`). -/
def deepMergeStep : List (String × Val) → String → Val → List (String × Val)
  | a, k, Val.vdict ves =>
      match dictGet a k with
      | some (Val.vdict aes) => dictSet a k (Val.vdict (deepMergeEntries aes ves))
      | _ => dictSet a k (Val.vdict ves)
  | a, k, v => dictSet a k v

/-- `_deep_merge(a, b)` from `orchestrator.py`: deep-merge dict `b` into
dict `a`, iterating the items of `b` in order.  The Python function
mutates `a` in place; the embedding returns the mutated dict. -/
def deepMergeEntries : List (String × Val) → List (String × Val) → List (String × Val)
  | a, [] => a
  | a, (k, v) :: rest => deepMergeEntries (deepMergeStep a k v) rest
end

/-!
A model of CPython's `urllib.parse.urlparse` restricted to what the
orchestrator feeds it: ordinary URLs without embedded tab/newline control
characters and without IPv6 bracket syntax.  The parse follows CPython's
`urlsplit` (scheme split at the first `:` when the prefix is a valid
scheme, `//`-introduced netloc up to the first of `/?#`, then fragment
split at the first `#`, then query split at the first `?`) followed by
`urlparse`'s params split on the last path segment.
-/

/-- The characters CPython's `urlsplit` accepts inside a URL scheme. -/
def isSchemeChar (c : Char) : Bool :=
  c.isAlpha || c.isDigit || c == '+' || c == '-' || c == '.'

/-- Index of the first occurrence of `c` in `cs`, if any. -/
def findCharIdx (cs : List Char) (c : Char) : Option Nat :=
  match cs with
  | [] => none
  | x :: t => if x = c then some 0 else (findCharIdx t c).map (· + 1)

/-- Split `cs` at the first occurrence of `c`, dropping the delimiter
(Python `s.split(c, 1)` when `c` occurs). -/
def splitFirst (cs : List Char) (c : Char) : List Char × List Char :=
  match findCharIdx cs c with
  | none => (cs, [])
  | some i => (cs.take i, cs.drop (i + 1))

/-- `_splitnetloc`: the prefix of `cs` up to (not including) the first
`/`, `?` or `#`, together with the remainder starting at that delimiter. -/
def splitNetloc (cs : List Char) : List Char × List Char :=
  match cs with
  | [] => ([], [])
  | x :: t =>
    if x = '/' || x = '?' || x = '#' then ([], x :: t)
    else
      let r := splitNetloc t
      (x :: r.1, r.2)

/-- The result record of `urlparse`: the six components CPython exposes. -/
structure ParsedUrl where
  scheme : String
  netloc : String
  path : String
  params : String
  query : String
  fragment : String

/-- CPython `urlsplit` on a control-character-free URL: returns
(scheme, netloc, path-with-params, query, fragment). -/
def urlsplitChars (cs : List Char) : List Char × List Char × List Char × List Char × List Char :=
  let (scheme, rest) :=
    match findCharIdx cs ':' with
    | some i =>
      if decide (0 < i) && (match cs with | c :: _ => c.isAlpha | [] => false)
          && (cs.take i).all isSchemeChar
      then ((cs.take i).map Char.toLower, cs.drop (i + 1))
      else ([], cs)
    | none => ([], cs)
  let (netloc, rest) :=
    match rest with
    | '/' :: '/' :: t => splitNetloc t
    | _ => ([], rest)
  let (rest, fragment) :=
    if rest.contains '#' then splitFirst rest '#' else (rest, [])
  let (rest, query) :=
    if rest.contains '?' then splitFirst rest '?' else (rest, [])
  (scheme, netloc, rest, query, fragment)

/-- The schemes for which `urlparse` splits path parameters
(CPython's `uses_params`). -/
def usesParams : List String :=
  ["", "ftp", "hdl", "prospero", "http", "imap", "https", "shttp",
   "rtsp", "rtspu", "sip", "sips", "mms", "sftp", "tel"]

/-- CPython `_splitparams`: split `;params` off the last path segment. -/
def splitParamsChars (cs : List Char) : List Char × List Char :=
  if cs.contains '/' then
    let r := (cs.length - 1) - (findCharIdx cs.reverse '/').getD 0
    match findCharIdx (cs.drop r) ';' with
    | none => (cs, [])
    | some j => (cs.take (r + j), cs.drop (r + j + 1))
  else
    splitFirst cs ';'

/-- CPython `urlparse(url)` (with `allow_fragments = True`). -/
def urlparse (url : String) : ParsedUrl :=
  let (scheme, netloc, rest, query, fragment) := urlsplitChars url.toList
  let (path, params) :=
    if usesParams.contains (String.mk scheme) ∧ rest.contains ';'
    then splitParamsChars rest
    else (rest, [])
  { scheme := String.mk scheme, netloc := String.mk netloc,
    path := String.mk path, params := String.mk params,
    query := String.mk query, fragment := String.mk fragment }

/-- `ParsedUrl.hostname` (CPython's `SplitResult.hostname`, bracket-free
netlocs): the part of the netloc after the last `@` and before the first
`:`, lowercased; the empty string stands for CPython's `None`. -/
def ParsedUrl.hostname (u : ParsedUrl) : String :=
  let cs := u.netloc.toList
  let hostinfo :=
    match findCharIdx cs.reverse '@' with
    | none => cs
    | some i => cs.drop (cs.length - i)
  String.mk ((splitFirst hostinfo ':').1.map Char.toLower)

/-- `ParsedUrl.port` (bracket-free netlocs): the digits after the first
`:` of the hostinfo, when present and numeric. -/
def ParsedUrl.portNum (u : ParsedUrl) : Option Nat :=
  let cs := u.netloc.toList
  let hostinfo :=
    match findCharIdx cs.reverse '@' with
    | none => cs
    | some i => cs.drop (cs.length - i)
  if hostinfo.contains ':' then
    let ds := (splitFirst hostinfo ':').2
    if !ds.isEmpty && ds.all Char.isDigit then
      some (ds.foldl (fun acc c => acc * 10 + (c.toNat - 48)) 0)
    else none
  else none

/-- `is_host_only_url(url)` from `orchestrator.py`: true when the URL is
scheme+host only (`u.path` empty or `"/"`, and no params/query/fragment). -/
def is_host_only_url (url : String) : Bool :=
  let u := urlparse url
  if u.scheme = "" || u.netloc = "" then false
  else (u.path = "" || u.path = "/") && u.params = "" && u.query = "" && u.fragment = ""

example : is_host_only_url "https://api.openai.com" = true := by decide
example : is_host_only_url "https://api.openai.com/v1" = false := by decide
example : is_host_only_url "https://api.openai.com/" = true := by decide
example : (urlparse "https://api.openai.com/").path = "/" := by decide
example : (urlparse "http://127.0.0.1:9999/mcp").hostname = "127.0.0.1" := by decide
example : (urlparse "http://127.0.0.1:9999/mcp").portNum = some 9999 := by decide

/-! The pydantic data model of `orchestrator.py`. -/

/-- `AgentProvider` (StrEnum). -/
inductive AgentProvider where
  | pydanticai
  | crew_ai
  | langchain
deriving DecidableEq

/-- The string value of an `AgentProvider` member. -/
def AgentProvider.toStr : AgentProvider → String
  | .pydanticai => "pydanticai"
  | .crew_ai => "crew_ai"
  | .langchain => "langchain"

/-- `ModelProvider` (StrEnum). -/
inductive ModelProvider where
  | openai
  | anthropic
  | azure_openai
  | gemini
deriving DecidableEq

/-- The string value of a `ModelProvider` member. -/
def ModelProvider.toStr : ModelProvider → String
  | .openai => "openai"
  | .anthropic => "anthropic"
  | .azure_openai => "azure_openai"
  | .gemini => "gemini"

/-- `ProxyKind` (StrEnum). -/
inductive ProxyKind where
  | mitmproxy
  | none
deriving DecidableEq

/-- `ProxyCfg` with its pydantic field defaults. -/
structure ProxyCfg where
  enabled : Bool := true
  kind : ProxyKind := ProxyKind.mitmproxy
  listen_host : String := "127.0.0.1"
  listen_port : Int := 8002

/-- `TracingCfg` with its pydantic field defaults. -/
structure TracingCfg where
  host : String := "127.0.0.1"
  port : Int := 7000

/-- `ClientCfg`: `cmd` is required, `args` defaults to `[]`. -/
structure ClientCfg where
  cmd : List String
  args : List String := []

/-- `Config` with its pydantic field defaults (`client` is required). -/
structure Config where
  agent_provider : AgentProvider := AgentProvider.pydanticai
  model_provider : ModelProvider := ModelProvider.openai
  proxy : ProxyCfg := {}
  tracing_api : TracingCfg := {}
  client : ClientCfg
  mcp_server_variant : String := "stdio"
  mcp_client_variant : String := "stdio"

/-- `Lookups`: the reverse-target table and the nested
agent → section → variant → definition MCP table, with `dict[str, object]`
leaves. -/
structure Lookups where
  model_reverse_target : List (String × String)
  mcp : List (String × List (String × List (String × List (String × Val))))

/-- Lookup in a string-keyed association table (Python dict `.get`). -/
def alookup {α : Type} : List (String × α) → String → Option α
  | [], _ => none
  | (k', v) :: t, k => if k' = k then some v else alookup t k

/-! Validation of the `lookups` and `defaults/profiles` documents, the
shallow embedding of the two `model_validate` calls of `load_all`. -/

/-- Parse a `dict[str, str]` value. -/
def parseStrDict : List (String × Val) → Option (List (String × String))
  | [] => some []
  | (k, Val.vstr s) :: t => (parseStrDict t).map (fun r => (k, s) :: r)
  | _ => none

/-- Parse one nesting level of a string-keyed dict whose values parse
with `f`. -/
def parseLevel {α : Type} (f : Val → Option α) :
    List (String × Val) → Option (List (String × α))
  | [] => some []
  | (k, v) :: t =>
    match f v with
    | some a => (parseLevel f t).map (fun r => (k, a) :: r)
    | none => none

/-- Parse a `dict[str, object]` leaf of the MCP table. -/
def parseDefLeaf : Val → Option (List (String × Val))
  | Val.vdict es => some es
  | _ => none

/-- Parse a `dict[str, dict[str, object]]` (the variants of a section). -/
def parseVariants : Val → Option (List (String × List (String × Val)))
  | Val.vdict es => parseLevel parseDefLeaf es
  | _ => none

/-- Parse a `dict[str, dict[str, dict[str, object]]]` (the sections of an
agent). -/
def parseSections : Val → Option (List (String × List (String × List (String × Val))))
  | Val.vdict es => parseLevel parseVariants es
  | _ => none

/-- `Lookups.model_validate` on the raw `lookups` section: both fields are
required and must have the declared nested-dict shapes; extra keys are
ignored. -/
def validateLookups : Val → Except String Lookups
  | Val.vdict es =>
    match dictGet es "model_reverse_target" with
    | none => Except.error "model_reverse_target: Field required"
    | some (Val.vdict m) =>
      match parseStrDict m with
      | none => Except.error "model_reverse_target: Input should be a valid string"
      | some mrt =>
        match dictGet es "mcp" with
        | none => Except.error "mcp: Field required"
        | some mv =>
          match (match mv with
                 | Val.vdict aes => parseLevel parseSections aes
                 | _ => none) with
          | none => Except.error "mcp: Input should be a valid dictionary"
          | some mcp => Except.ok { model_reverse_target := mrt, mcp := mcp }
    | some _ => Except.error "model_reverse_target: Input should be a valid dictionary"
  | _ => Except.error "Input should be a valid dictionary"

/-- Parse an `AgentProvider` from its string value. -/
def parseAgentProvider : Val → Option AgentProvider
  | Val.vstr "pydanticai" => some AgentProvider.pydanticai
  | Val.vstr "crew_ai" => some AgentProvider.crew_ai
  | Val.vstr "langchain" => some AgentProvider.langchain
  | _ => none

/-- Parse a `ModelProvider` from its string value. -/
def parseModelProvider : Val → Option ModelProvider
  | Val.vstr "openai" => some ModelProvider.openai
  | Val.vstr "anthropic" => some ModelProvider.anthropic
  | Val.vstr "azure_openai" => some ModelProvider.azure_openai
  | Val.vstr "gemini" => some ModelProvider.gemini
  | _ => none

/-- Parse a `ProxyKind` from its string value. -/
def parseProxyKind : Val → Option ProxyKind
  | Val.vstr "mitmproxy" => some ProxyKind.mitmproxy
  | Val.vstr "none" => some ProxyKind.none
  | _ => none

/-- Parse a `list[str]` value. -/
def parseStrList : Val → Option (List String)
  | Val.vlist xs =>
    xs.foldr (fun v acc =>
      match v, acc with
      | Val.vstr s, some r => some (s :: r)
      | _, _ => none) (some [])
  | _ => none

/-- A field with a pydantic default: missing means the default, present
means the value must parse. -/
def fieldWithDefault {α : Type} (es : List (String × Val)) (k : String)
    (p : Val → Option α) (d : α) : Except String α :=
  match dictGet es k with
  | none => Except.ok d
  | some v =>
    match p v with
    | some a => Except.ok a
    | none => Except.error (k ++ ": invalid value")

/-- `ProxyCfg.model_validate`. -/
def parseProxyCfg : Val → Option ProxyCfg
  | Val.vdict es =>
    match fieldWithDefault es "enabled"
            (fun v => match v with | Val.vbool b => some b | _ => Option.none) true,
          fieldWithDefault es "kind" parseProxyKind ProxyKind.mitmproxy,
          fieldWithDefault es "listen_host"
            (fun v => match v with | Val.vstr s => some s | _ => Option.none) "127.0.0.1",
          fieldWithDefault es "listen_port"
            (fun v => match v with | Val.vint n => some n | _ => Option.none) 8002 with
    | Except.ok e, Except.ok kd, Except.ok h, Except.ok p =>
      some { enabled := e, kind := kd, listen_host := h, listen_port := p }
    | _, _, _, _ => none
  | _ => none

/-- `TracingCfg.model_validate`. -/
def parseTracingCfg : Val → Option TracingCfg
  | Val.vdict es =>
    match fieldWithDefault es "host"
            (fun v => match v with | Val.vstr s => some s | _ => Option.none) "127.0.0.1",
          fieldWithDefault es "port"
            (fun v => match v with | Val.vint n => some n | _ => Option.none) 7000 with
    | Except.ok h, Except.ok p => some { host := h, port := p }
    | _, _ => none
  | _ => none

/-- `ClientCfg.model_validate`: `cmd` required, `args` optional. -/
def parseClientCfg : Val → Option ClientCfg
  | Val.vdict es =>
    match dictGet es "cmd" with
    | some cv =>
      match parseStrList cv with
      | some cmd =>
        match fieldWithDefault es "args" parseStrList [] with
        | Except.ok args => some { cmd := cmd, args := args }
        | Except.error _ => none
      | none => none
    | none => none
  | _ => none

/-- `Config.model_validate` on the merged `defaults/profiles` dict:
every field except `client` falls back to its declared default when the
key is absent. -/
def validateConfig (es : List (String × Val)) : Except String Config :=
  match fieldWithDefault es "agent_provider" parseAgentProvider AgentProvider.pydanticai with
  | Except.error e => Except.error e
  | Except.ok ap =>
  match fieldWithDefault es "model_provider" parseModelProvider ModelProvider.openai with
  | Except.error e => Except.error e
  | Except.ok mp =>
  match fieldWithDefault es "proxy" parseProxyCfg {} with
  | Except.error e => Except.error e
  | Except.ok px =>
  match fieldWithDefault es "tracing_api" parseTracingCfg {} with
  | Except.error e => Except.error e
  | Except.ok tr =>
  match dictGet es "client" with
  | Option.none => Except.error "client: Field required"
  | some cv =>
  match parseClientCfg cv with
  | Option.none => Except.error "client: invalid value"
  | some cl =>
  match fieldWithDefault es "mcp_server_variant"
          (fun v => match v with | Val.vstr s => some s | _ => Option.none) "stdio" with
  | Except.error e => Except.error e
  | Except.ok sv =>
  match fieldWithDefault es "mcp_client_variant"
          (fun v => match v with | Val.vstr s => some s | _ => Option.none) "stdio" with
  | Except.error e => Except.error e
  | Except.ok cvr =>
    Except.ok { agent_provider := ap, model_provider := mp, proxy := px,
                tracing_api := tr, client := cl,
                mcp_server_variant := sv, mcp_client_variant := cvr }

/-! The `load_all` pipeline. -/

/-- How `load_all` can abort: `dieErr` is the reported fatal exit through
`die(...)` (SystemExit code 1); `keyErr` is an uncaught `KeyError`;
`typeErr` is an uncaught `TypeError`/`AttributeError`. -/
inductive LoadErr where
  | dieErr (msg : String)
  | keyErr (key : String)
  | typeErr (msg : String)

/-- The `die` message for a missing profile. -/
def profileNotFoundMsg (p config_path : String) : String :=
  "Profile " ++ sglq ++ p ++ sglq ++ " not found in " ++ config_path

/-- Lines 141–158 of `load_all`: copy the `defaults` section, apply the
profile override (dying when `profiles.get(profile)` is falsy — note that
`if profile:` also skips an empty profile name), then flatten the nested
`mcp.server_variant` / `mcp.client_variant` shorthand. -/
def prepCfgDict (res : List (String × Val)) (profile : Option String)
    (config_path : String) : Except LoadErr (List (String × Val)) :=
  let cfg0e : Except LoadErr (List (String × Val)) :=
    match dictGet res "defaults" with
    | Option.none => Except.ok []
    | some (Val.vdict d) => Except.ok d
    | some _ => Except.error (LoadErr.typeErr "defaults section is not a mapping")
  match cfg0e with
  | Except.error e => Except.error e
  | Except.ok cfg0 =>
    let cfg1e : Except LoadErr (List (String × Val)) :=
      match profile with
      | Option.none => Except.ok cfg0
      | some p =>
        if p = "" then Except.ok cfg0
        else
          match dictGet res "profiles" with
          | some (Val.vdict ps) =>
            (match dictGet ps p with
             | some prof =>
               if pyTruthy prof then
                 match prof with
                 | Val.vdict pd => Except.ok (deepMergeEntries cfg0 pd)
                 | _ => Except.error (LoadErr.typeErr "profile value is not a mapping")
               else Except.error (LoadErr.dieErr (profileNotFoundMsg p config_path))
             | Option.none => Except.error (LoadErr.dieErr (profileNotFoundMsg p config_path)))
          | Option.none => Except.error (LoadErr.dieErr (profileNotFoundMsg p config_path))
          | some _ => Except.error (LoadErr.typeErr "profiles section is not a mapping")
    match cfg1e with
    | Except.error e => Except.error e
    | Except.ok cfg1 =>
      let popped := dictPop cfg1 "mcp"
      let cfg3 :=
        match popped.1 with
        | some (Val.vdict m) =>
          let c :=
            match dictGet m "server_variant" with
            | some sv => dictSet popped.2 "mcp_server_variant" sv
            | Option.none => popped.2
          match dictGet m "client_variant" with
          | some cv => dictSet c "mcp_client_variant" cv
          | Option.none => c
        | _ => popped.2
      Except.ok cfg3

/-- Lines 160–165 of `load_all`: validate the `lookups` section,
converting a validation failure into the fatal `die` message. -/
def lookupsStep (res : List (String × Val)) : Except LoadErr Lookups :=
  match validateLookups ((dictGet res "lookups").getD (Val.vdict [])) with
  | Except.error e =>
    Except.error (LoadErr.dieErr ("Invalid " ++ sglq ++ "lookups" ++ sglq ++ " config: " ++ e))
  | Except.ok lk => Except.ok lk

/-- Using a `Val` as the subscript of a string-keyed dict: strings index
directly, other hashable scalars miss every string key (`KeyError` showing
the value), and unhashable containers raise `TypeError`. -/
def keyOfVal : Val → Except LoadErr String
  | Val.vstr s => Except.ok s
  | Val.vnull => Except.error (LoadErr.keyErr "None")
  | Val.vbool true => Except.error (LoadErr.keyErr "True")
  | Val.vbool false => Except.error (LoadErr.keyErr "False")
  | Val.vint n => Except.error (LoadErr.keyErr (toString n))
  | Val.vlist _ => Except.error (LoadErr.typeErr "unhashable type: list")
  | Val.vdict _ => Except.error (LoadErr.typeErr "unhashable type: dict")

/-- Line 168 of `load_all`:
`lookups.mcp[cfg_dict["agent_provider"]]["clients"][cfg_dict["mcp_client_variant"]]`,
with each bracket raising `KeyError` on a miss, in Python's evaluation
order. -/
def clientLookup (cfgd : List (String × Val)) (lk : Lookups) :
    Except LoadErr (List (String × Val)) :=
  match dictGet cfgd "agent_provider" with
  | Option.none => Except.error (LoadErr.keyErr "agent_provider")
  | some apv =>
  match keyOfVal apv with
  | Except.error e => Except.error e
  | Except.ok ap =>
  match alookup lk.mcp ap with
  | Option.none => Except.error (LoadErr.keyErr ap)
  | some am =>
  match alookup am "clients" with
  | Option.none => Except.error (LoadErr.keyErr "clients")
  | some cl =>
  match dictGet cfgd "mcp_client_variant" with
  | Option.none => Except.error (LoadErr.keyErr "mcp_client_variant")
  | some cvv =>
  match keyOfVal cvv with
  | Except.error e => Except.error e
  | Except.ok cv =>
  match alookup cl cv with
  | Option.none => Except.error (LoadErr.keyErr cv)
  | some cdef => Except.ok cdef

/-- Lines 170–173 of `load_all`: validate the merged config dict,
converting a validation failure into the fatal `die` message. -/
def configStep (cfgd : List (String × Val)) : Except LoadErr Config :=
  match validateConfig cfgd with
  | Except.error e =>
    Except.error (LoadErr.dieErr
      ("Invalid " ++ sglq ++ "defaults/profiles" ++ sglq ++ " config: " ++ e))
  | Except.ok c => Except.ok c

/-- `load_all(config_path, profile)` on an already-deserialised document
`raw`: defaults copy, profile merge, mcp flattening, lookups validation,
client-definition lookup, config validation. -/
def load_all (raw : Val) (profile : Option String) (config_path : String) :
    Except LoadErr (Config × Lookups) :=
  match raw with
  | Val.vdict res =>
    (match prepCfgDict res profile config_path with
     | Except.error e => Except.error e
     | Except.ok cfgd =>
       match lookupsStep res with
       | Except.error e => Except.error e
       | Except.ok lk =>
         match clientLookup cfgd lk with
         | Except.error e => Except.error e
         | Except.ok cdef =>
           match configStep (dictSet cfgd "client" (Val.vdict cdef)) with
           | Except.error e => Except.error e
           | Except.ok cfg => Except.ok (cfg, lk))
  | _ => Except.error (LoadErr.typeErr "configuration document is not a mapping")

/-! The environment builder (`build_env`, lines 247–257, and the
`MCP_*` assignments of `up`, lines 319–336). -/

/-- `env.get(k)` on the environment map (first occurrence wins). -/
def envGet : List (String × String) → String → Option String
  | [], _ => none
  | (k', v) :: t, k => if k' = k then some v else envGet t k

/-- `env[k] = v`: replace in place or append. -/
def envSet : List (String × String) → String → String → List (String × String)
  | [], k, v => [(k, v)]
  | (k', v') :: t, k, v => if k' = k then (k', v) :: t else (k', v') :: envSet t k v

/-- `env.setdefault(k, v)`: keep an existing value, else append `(k, v)`. -/
def envSetdefault (e : List (String × String)) (k v : String) :
    List (String × String) :=
  match envGet e k with
  | some _ => e
  | Option.none => e ++ [(k, v)]

/-- `build_env(base_env, cfg)`: copy the base environment, set the
identity and tracing variables, and `setdefault` `BASE_URL` to the proxy
listen address when the proxy is enabled with a real kind. -/
def build_env (base : List (String × String)) (cfg : Config) :
    List (String × String) :=
  let env := base
  let env := envSet env "AGENT_PROVIDER" cfg.agent_provider.toStr
  let env := envSet env "MODEL_PROVIDER" cfg.model_provider.toStr
  let env := envSet env "TRACING_API"
    ("http://" ++ cfg.tracing_api.host ++ ":" ++ toString cfg.tracing_api.port)
  if cfg.proxy.enabled && !(cfg.proxy.kind = ProxyKind.none) then
    envSetdefault env "BASE_URL"
      ("http://" ++ cfg.proxy.listen_host ++ ":" ++ toString cfg.proxy.listen_port)
  else env

/-- Lines 319–329 of `up`: `build_env` plus the authoritative `MCP_*`
identity keys and, when the client definition carries a truthy
`client_path`, `MCP_CLIENT_CONFIG`. -/
def upEnvBase (base : List (String × String)) (cfg : Config)
    (server_def client_def : List (String × Val)) : List (String × String) :=
  let env := build_env base cfg
  let env := envSet env "MCP_AGENT_PROVIDER" cfg.agent_provider.toStr
  let env := envSet env "MCP_SERVER_VARIANT" cfg.mcp_server_variant
  let env := envSet env "MCP_CLIENT_VARIANT" cfg.mcp_client_variant
  let server_type := pyStrOpt (alookup server_def "type")
  let env := envSet env "MCP_TRANSPORT" server_type
  let client_cfg_path := alookup client_def "client_path"
  match client_cfg_path with
  | some v => if pyTruthy v then envSet env "MCP_CLIENT_CONFIG" (pyStrVal v) else env
  | Option.none => env

/-- The environment after lines 319–336 of `up`: `upEnvBase` plus
`MCP_SERVER_URL` for the HTTP transport; fails exactly where `up` would
`die` (an HTTP server variant without a truthy `url`). -/
def upEnv (base : List (String × String)) (cfg : Config)
    (server_def client_def : List (String × Val)) :
    Except String (List (String × String)) :=
  let env := upEnvBase base cfg server_def client_def
  if pyStrOpt (alookup server_def "type") = "http" then
    match alookup server_def "url" with
    | some u =>
      if pyTruthy u then Except.ok (envSet env "MCP_SERVER_URL" (pyStrVal u))
      else Except.error ("HTTP MCP server requires a " ++ sglq ++ "url" ++ sglq ++ " field in lookups.mcp.<agent>.servers.<variant>")
    | Option.none =>
      Except.error ("HTTP MCP server requires a " ++ sglq ++ "url" ++ sglq ++ " field in lookups.mcp.<agent>.servers.<variant>")
  else Except.ok env

/-! The `up` command (lines 264–389): resolution checks, then the process
lifecycle, modelled as an explicit event trace.  The ambient world (which
readiness probes succeed, the client's exit code) is an oracle `World`. -/

/-- The four stages the supervisor can spawn. -/
inductive Stage where
  | tracing
  | proxy
  | mcpServer
  | client
deriving DecidableEq

/-- Observable events of one `up` invocation.  `dieMsg` is the diagnostic
printed by `die`; `exited` the orchestrator's process exit; `probe` one
`wait_port` readiness gate with its outcome; `callShutdownAll` the
invocation of `shutdown_all` on the current handle list (in start order);
`crash` an uncaught Python exception. -/
inductive Event where
  | installHandlers
  | spawn (s : Stage)
  | probe (host : String) (port : Int) (ok : Bool)
  | sleepGrace
  | dieMsg (msg : String)
  | clientExited (code : Int)
  | callShutdownAll (procs : List Stage)
  | exited (code : Int)
  | crash (msg : String)
deriving DecidableEq

/-- The environment `up` runs against: readiness-probe outcomes and the
foreground client's exit code. -/
structure World where
  tracingReady : Bool
  proxyReady : Bool
  mcpReady : Bool
  clientExit : Int

/-- `die(msg)`: print the diagnostic and exit with code 1 — and nothing
else: `die` raises `SystemExit(1)` without invoking `shutdown_all`. -/
def dieEvents (m : String) : List Event := [Event.dieMsg m, Event.exited 1]

/-- Truthiness of `lookups.model_reverse_target.get(...)`. -/
def optStrTruthy : Option String → Bool
  | none => false
  | some s => decide (s ≠ "")

/-- `die` message for a missing reverse target (line 294). -/
def noReverseTargetMsg (mp : ModelProvider) : String :=
  "No reverse target defined for model_provider " ++ sglq ++ mp.toStr ++ sglq
    ++ " in lookups.model_reverse_target"

/-- `die` message for a missing agent in the MCP lookups (line 300). -/
def noAgentMsg (ap : AgentProvider) : String :=
  "No MCP lookups for agent " ++ sglq ++ ap.toStr ++ sglq ++ " in lookups.mcp"

/-- `die` message for a missing server variant (line 306). -/
def noServerVariantMsg (sv : String) (ap : AgentProvider) : String :=
  "No MCP server variant " ++ sglq ++ sv ++ sglq ++ " for agent "
    ++ sglq ++ ap.toStr ++ sglq

/-- `die` message for a missing client variant (line 308). -/
def noClientVariantMsg (cv : String) (ap : AgentProvider) : String :=
  "No MCP client variant " ++ sglq ++ cv ++ sglq ++ " for agent "
    ++ sglq ++ ap.toStr ++ sglq

/-- `die` message for a server/client transport mismatch (lines 314–317);
it names both transport types. -/
def mismatchMsg (server_type client_type : String) : String :=
  "MCP server/client transport mismatch: server=" ++ sglq ++ server_type ++ sglq
    ++ " vs client=" ++ sglq ++ client_type ++ sglq ++ ". Pick matching variants."

/-- `die` message for an HTTP server variant without a `url` (line 335). -/
def httpUrlRequiredMsg : String :=
  "HTTP MCP server requires a " ++ sglq ++ "url" ++ sglq
    ++ " field in lookups.mcp.<agent>.servers.<variant>"

/-- `die` message when the tracing port never opens (line 355). -/
def tracingFailedMsg : String := "Tracing API failed to start or open its port"

/-- `die` message of `start_proxy` for a non-host-only reverse target
(line 205). -/
def proxyTargetMsg : String :=
  "Proxy reverse_target must be base host (e.g., https://api.openai.com), not a path."

/-- `die` message when the proxy port never opens (line 363). -/
def proxyFailedMsg : String := "Proxy failed to start or open its port"

/-- `die` message for an MCP HTTP URL without a hostname (line 381). -/
def invalidUrlMsg (url : String) : String := "Invalid MCP HTTP URL: " ++ url

/-- `die` message when the MCP HTTP port never opens (line 383). -/
def mcpFailedMsg (host : String) (port : Int) : String :=
  "MCP HTTP server failed to open " ++ host ++ ":" ++ toString port

/-- `die` message for an unsupported MCP server type (line 385). -/
def unsupportedTypeMsg (t : String) : String := "Unsupported MCP server type: " ++ t

/-- The defensive internal message at line 374. -/
def internalHttpUrlMsg : String :=
  "Internal: missing http_url after server_type==" ++ sglq ++ "http" ++ sglq

/-- The resolution outcome of lines 290–336 of `up`, before any process
is spawned. -/
structure Resolved where
  reverse_target : Option String
  server_def : List (String × Val)
  client_def : List (String × Val)
  server_type : String
  http_url : Option Val

/-- Lines 290–336 of `up`: reverse-target lookup (only checked when the
proxy is enabled), agent lookup, server/client variant lookups, the
transport-mismatch check and the HTTP `url` check, each `die`ing with its
diagnostic, in source order. -/
def resolveRun (cfg : Config) (lk : Lookups) : Except String Resolved :=
  let reverse_target := alookup lk.model_reverse_target cfg.model_provider.toStr
  if cfg.proxy.enabled && !optStrTruthy reverse_target then
    Except.error (noReverseTargetMsg cfg.model_provider)
  else
    match alookup lk.mcp cfg.agent_provider.toStr with
    | Option.none => Except.error (noAgentMsg cfg.agent_provider)
    | some agent_mcp =>
      if agent_mcp.isEmpty then Except.error (noAgentMsg cfg.agent_provider)
      else
        let server_defO := alookup ((alookup agent_mcp "servers").getD []) cfg.mcp_server_variant
        let client_defO := alookup ((alookup agent_mcp "clients").getD []) cfg.mcp_client_variant
        match server_defO with
        | Option.none => Except.error (noServerVariantMsg cfg.mcp_server_variant cfg.agent_provider)
        | some server_def =>
          if server_def.isEmpty then
            Except.error (noServerVariantMsg cfg.mcp_server_variant cfg.agent_provider)
          else
            match client_defO with
            | Option.none =>
              Except.error (noClientVariantMsg cfg.mcp_client_variant cfg.agent_provider)
            | some client_def =>
              if client_def.isEmpty then
                Except.error (noClientVariantMsg cfg.mcp_client_variant cfg.agent_provider)
              else
                let server_type := pyStrOpt (alookup server_def "type")
                let client_type := pyStrOpt (alookup client_def "type")
                if server_type ≠ client_type then
                  Except.error (mismatchMsg server_type client_type)
                else
                  if server_type = "http" then
                    let u := alookup server_def "url"
                    if !pyTruthyOpt u then Except.error httpUrlRequiredMsg
                    else Except.ok { reverse_target := reverse_target,
                                     server_def := server_def, client_def := client_def,
                                     server_type := server_type, http_url := u }
                  else Except.ok { reverse_target := reverse_target,
                                   server_def := server_def, client_def := client_def,
                                   server_type := server_type, http_url := Option.none }

/-- Stage 4 (lines 387–389): spawn the client, block until it exits, then
`_shutdown_and_exit(exit_code)` — `shutdown_all` on the handle list, exit
with the client's code. -/
def clientTrace (w : World) (procs : List Stage) : List Event :=
  [Event.spawn Stage.client, Event.clientExited w.clientExit,
   Event.callShutdownAll procs, Event.exited w.clientExit]

/-- `u.port or (443 if u.scheme == "https" else 80)` from line 379 of
`up` — note Python's `or` falls back to the default when the parsed port
is 0 (falsy). -/
def urlPortOrDefault (u : ParsedUrl) : Int :=
  match u.portNum with
  | some p => if p = 0 then (if u.scheme = "https" then 443 else 80) else Int.ofNat p
  | Option.none => if u.scheme = "https" then 443 else 80

/-- Stage 3 (lines 365–385) followed by the client stage: a stdio server
with a truthy `cmd` is spawned with a grace sleep and no readiness probe;
an HTTP server is spawned and then its URL's host:port is probed (`die`
on a hostless URL, after the spawn); an unrecognised type `die`s. -/
def mcpAndClientTrace (r : Resolved) (w : World) (procs : List Stage) : List Event :=
  if r.server_type = "stdio" then
    if pyTruthyOpt (alookup r.server_def "cmd") then
      [Event.spawn Stage.mcpServer, Event.sleepGrace]
        ++ clientTrace w (procs ++ [Stage.mcpServer])
    else clientTrace w procs
  else if r.server_type = "http" then
    match r.http_url with
    | Option.none => dieEvents internalHttpUrlMsg
    | some uv =>
      match uv with
      | Val.vstr url =>
        let u := urlparse url
        let host := u.hostname
        let port : Int := urlPortOrDefault u
        if host = "" then [Event.spawn Stage.mcpServer] ++ dieEvents (invalidUrlMsg url)
        else
          [Event.spawn Stage.mcpServer, Event.probe host port w.mcpReady]
            ++ (if !w.mcpReady then dieEvents (mcpFailedMsg host port)
                else clientTrace w (procs ++ [Stage.mcpServer]))
      | _ => [Event.spawn Stage.mcpServer, Event.crash "TypeError: urlparse expects a string URL"]
  else dieEvents (unsupportedTypeMsg r.server_type)

/-- The stage events of lines 351–389 of `up` (everything after the
handler installation): tracing spawn and probe, then the optional proxy
stage, then the MCP and client stages.  Every readiness failure goes
through `die` (diagnostic + exit 1, no `shutdown_all`); only clean client
completion reaches `_shutdown_and_exit`. -/
def stagesTrace (cfg : Config) (r : Resolved) (w : World) : List Event :=
  let pre := [Event.spawn Stage.tracing,
              Event.probe cfg.tracing_api.host cfg.tracing_api.port w.tracingReady]
  if !w.tracingReady then pre ++ dieEvents tracingFailedMsg
  else
    let procs1 := [Stage.tracing]
    if cfg.proxy.enabled && !(cfg.proxy.kind = ProxyKind.none) then
      -- start_proxy with kind = mitmproxy (the only kind other than none)
      let rt := r.reverse_target.getD ""
      if !is_host_only_url rt then pre ++ dieEvents proxyTargetMsg
      else
        let ev2 := pre ++ [Event.spawn Stage.proxy,
                           Event.probe cfg.proxy.listen_host cfg.proxy.listen_port w.proxyReady]
        if !w.proxyReady then ev2 ++ dieEvents proxyFailedMsg
        else ev2 ++ mcpAndClientTrace r w (procs1 ++ [Stage.proxy])
    else pre ++ mcpAndClientTrace r w procs1

/-- Lines 338–389 of `up`: install the signal handlers (lines 341–349),
then run the four stages. -/
def lifecycleTrace (cfg : Config) (r : Resolved) (w : World) : List Event :=
  Event.installHandlers :: stagesTrace cfg r w

/-- The full `up` run on resolved inputs: resolution `die`s produce a
diagnostic and exit 1 before anything is spawned; otherwise the lifecycle
runs. -/
def upTrace (cfg : Config) (lk : Lookups) (w : World) : List Event :=
  match resolveRun cfg lk with
  | Except.error m => dieEvents m
  | Except.ok r => lifecycleTrace cfg r w

/-- The `up` run from the raw configuration document (`load_all` followed
by the lifecycle; the optional CLI overrides are not passed, matching an
invocation without override flags). -/
def upFull (raw : Val) (profile : Option String) (config_path : String)
    (w : World) : List Event :=
  match load_all raw profile config_path with
  | Except.error (LoadErr.dieErr m) => dieEvents m
  | Except.error (LoadErr.keyErr k) =>
    [Event.crash ("KeyError: " ++ sglq ++ k ++ sglq)]
  | Except.error (LoadErr.typeErr m) => [Event.crash m]
  | Except.ok (cfg, lk) => upTrace cfg lk w

/-- The POSIX signals `up` registers handlers for. -/
inductive PySignal where
  | sigint
  | sigterm
deriving DecidableEq

/-- `_handle_sig` (lines 345–349): both SIGINT and SIGTERM run
`_shutdown_and_exit(130)` — `shutdown_all` over the handles accumulated so
far, then exit 130. -/
def handleSignal : PySignal → List Stage → List Event
  | PySignal.sigint, procs => [Event.callShutdownAll procs, Event.exited 130]
  | PySignal.sigterm, procs => [Event.callShutdownAll procs, Event.exited 130]

/-! The Shutdown Coordinator `shutdown_all` (lines 233–244), modelled over
process handles with explicit poll outcomes. -/

/-- A process handle at shutdown time: `running1` is whether `poll()` sees
it alive during the terminate pass, `running2` during the wait pass, and
`gracefulExit` whether `wait(timeout=5)` returns before the timeout. -/
structure SProc where
  pid : Nat
  running1 : Bool
  running2 : Bool
  gracefulExit : Bool
deriving DecidableEq

/-- Shutdown events: a terminate signal, a bounded wait (with its timeout
in seconds and whether it expired), and a force kill. -/
inductive SEvent where
  | term (pid : Nat)
  | waitT (pid : Nat) (timeout : Nat) (timedOut : Bool)
  | kill (pid : Nat)
deriving DecidableEq

/-- First pass of `shutdown_all` for one handle: terminate if still
running. -/
def termStep (p : SProc) : List SEvent :=
  if p.running1 then [SEvent.term p.pid] else []

/-- Second pass of `shutdown_all` for one handle: if still running, wait
up to 5 seconds and kill on `TimeoutExpired`. -/
def waitStep (p : SProc) : List SEvent :=
  if p.running2 then
    if p.gracefulExit then [SEvent.waitT p.pid 5 false]
    else [SEvent.waitT p.pid 5 true, SEvent.kill p.pid]
  else []

/-- `shutdown_all(procs)`: iterate the handle list in reverse start order
terminating every still-running process, then iterate again in the same
reverse order waiting (5s bound) and force-killing stragglers. -/
def shutdown_all (procs : List SProc) : List SEvent :=
  (procs.reverse.map termStep).flatten ++ (procs.reverse.map waitStep).flatten

/-! Helper lemmas about dict lookup, assignment and deep merge. -/

theorem dictGet_dictSet_self (a : List (String × Val)) (k : String) (v : Val) :
    dictGet (dictSet a k v) k = some v := by
  induction a with
  | nil => simp [dictSet, dictGet]
  | cons hd t ih =>
    obtain ⟨k', v'⟩ := hd
    by_cases hk : k' = k
    · simp [dictSet, hk, dictGet]
    · simp [dictSet, hk, dictGet, ih]

theorem dictGet_dictSet_other (a : List (String × Val)) (k k' : String) (v : Val)
    (h : k' ≠ k) : dictGet (dictSet a k v) k' = dictGet a k' := by
  induction a with
  | nil => simp [dictSet, dictGet, Ne.symm h]
  | cons hd t ih =>
    obtain ⟨k0, v0⟩ := hd
    by_cases hk : k0 = k
    · have hne : ¬ k0 = k' := fun he => h (he.symm.trans hk)
      simp [dictSet, hk, dictGet, hne, Ne.symm h]
    · simp [dictSet, hk, dictGet, ih]

theorem dictGet_eq_none_of_not_mem (t : List (String × Val)) (k : String)
    (h : k ∉ t.map Prod.fst) : dictGet t k = none := by
  induction t with
  | nil => rfl
  | cons hd t ih =>
    obtain ⟨k0, v0⟩ := hd
    have h1 : ¬ k0 = k := fun he => h (List.mem_cons.mpr (Or.inl he.symm))
    have h2 : k ∉ t.map Prod.fst := fun hm => h (List.mem_cons.mpr (Or.inr hm))
    simp [dictGet, h1, ih h2]

theorem dictGet_deepMergeStep_other (a : List (String × Val)) (k0 : String)
    (v : Val) (k : String) (h : k ≠ k0) :
    dictGet (deepMergeStep a k0 v) k = dictGet a k := by
  cases v with
  | vdict ves =>
    rcases hg : dictGet a k0 with _ | val
    · simp [deepMergeStep, hg, dictGet_dictSet_other _ _ _ _ h]
    · cases val <;> simp [deepMergeStep, hg, dictGet_dictSet_other _ _ _ _ h]
  | vnull => simp [deepMergeStep, dictGet_dictSet_other _ _ _ _ h]
  | vbool b => simp [deepMergeStep, dictGet_dictSet_other _ _ _ _ h]
  | vint n => simp [deepMergeStep, dictGet_dictSet_other _ _ _ _ h]
  | vstr s => simp [deepMergeStep, dictGet_dictSet_other _ _ _ _ h]
  | vlist xs => simp [deepMergeStep, dictGet_dictSet_other _ _ _ _ h]

theorem dictGet_deepMerge_none (a b : List (String × Val)) (k : String)
    (hb : dictGet b k = none) :
    dictGet (deepMergeEntries a b) k = dictGet a k := by
  induction b generalizing a with
  | nil => simp [deepMergeEntries]
  | cons hd t ih =>
    obtain ⟨k0, v0⟩ := hd
    by_cases hk : k0 = k
    · simp [dictGet, hk] at hb
    · simp only [dictGet, if_neg hk] at hb
      show dictGet (deepMergeEntries (deepMergeStep a k0 v0) t) k = dictGet a k
      rw [ih _ hb, dictGet_deepMergeStep_other _ _ _ _ (fun he => hk he.symm)]

theorem dictGet_deepMerge_replace (a b : List (String × Val)) (k : String) (v : Val)
    (hnd : (b.map Prod.fst).Nodup)
    (hb : dictGet b k = some v)
    (hrep : (∀ ves, v ≠ Val.vdict ves) ∨ (∀ aes, dictGet a k ≠ some (Val.vdict aes))) :
    dictGet (deepMergeEntries a b) k = some v := by
  induction b generalizing a with
  | nil => simp [dictGet] at hb
  | cons hd t ih =>
    obtain ⟨k0, v0⟩ := hd
    have hnds : (k0 :: t.map Prod.fst).Nodup := by simpa using hnd
    have hnd' : (t.map Prod.fst).Nodup := (List.nodup_cons.mp hnds).2
    by_cases hk : k0 = k
    · subst hk
      simp only [dictGet, if_pos rfl] at hb
      injection hb with hv
      subst hv
      have hk0 : k0 ∉ t.map Prod.fst := (List.nodup_cons.mp hnds).1
      show dictGet (deepMergeEntries (deepMergeStep a k0 v0) t) k0 = some v0
      rw [dictGet_deepMerge_none _ _ _ (dictGet_eq_none_of_not_mem _ _ hk0)]
      cases hrep with
      | inl h1 =>
        cases v0 with
        | vdict ves => exact absurd rfl (h1 ves)
        | vnull => simp [deepMergeStep, dictGet_dictSet_self]
        | vbool b => simp [deepMergeStep, dictGet_dictSet_self]
        | vint n => simp [deepMergeStep, dictGet_dictSet_self]
        | vstr s => simp [deepMergeStep, dictGet_dictSet_self]
        | vlist xs => simp [deepMergeStep, dictGet_dictSet_self]
      | inr h2 =>
        cases v0 with
        | vnull => simp [deepMergeStep, dictGet_dictSet_self]
        | vbool b => simp [deepMergeStep, dictGet_dictSet_self]
        | vint n => simp [deepMergeStep, dictGet_dictSet_self]
        | vstr s => simp [deepMergeStep, dictGet_dictSet_self]
        | vlist xs => simp [deepMergeStep, dictGet_dictSet_self]
        | vdict ves =>
          rcases hg : dictGet a k0 with _ | val
          · simp [deepMergeStep, hg, dictGet_dictSet_self]
          · cases val with
            | vdict aes => exact absurd hg (h2 aes)
            | vnull => simp [deepMergeStep, hg, dictGet_dictSet_self]
            | vbool b => simp [deepMergeStep, hg, dictGet_dictSet_self]
            | vint n => simp [deepMergeStep, hg, dictGet_dictSet_self]
            | vstr s => simp [deepMergeStep, hg, dictGet_dictSet_self]
            | vlist xs => simp [deepMergeStep, hg, dictGet_dictSet_self]
    · simp only [dictGet, if_neg hk] at hb
      show dictGet (deepMergeEntries (deepMergeStep a k0 v0) t) k = some v
      apply ih _ hnd' hb
      cases hrep with
      | inl h1 => exact Or.inl h1
      | inr h2 =>
        refine Or.inr fun aes he => h2 aes ?_
        rwa [dictGet_deepMergeStep_other _ _ _ _ (fun heq => hk heq.symm)] at he

theorem dictGet_deepMerge_recurse (a b : List (String × Val)) (k : String)
    (aes ves : List (String × Val))
    (hnd : (b.map Prod.fst).Nodup)
    (hb : dictGet b k = some (Val.vdict ves))
    (ha : dictGet a k = some (Val.vdict aes)) :
    dictGet (deepMergeEntries a b) k = some (Val.vdict (deepMergeEntries aes ves)) := by
  induction b generalizing a with
  | nil => simp [dictGet] at hb
  | cons hd t ih =>
    obtain ⟨k0, v0⟩ := hd
    have hnds : (k0 :: t.map Prod.fst).Nodup := by simpa using hnd
    have hnd' : (t.map Prod.fst).Nodup := (List.nodup_cons.mp hnds).2
    by_cases hk : k0 = k
    · subst hk
      simp only [dictGet, if_pos rfl] at hb
      injection hb with hv
      subst hv
      have hk0 : k0 ∉ t.map Prod.fst := (List.nodup_cons.mp hnds).1
      show dictGet (deepMergeEntries (deepMergeStep a k0 (Val.vdict ves)) t) k0 = _
      rw [dictGet_deepMerge_none _ _ _ (dictGet_eq_none_of_not_mem _ _ hk0)]
      simp [deepMergeStep, ha, dictGet_dictSet_self]
    · simp only [dictGet, if_neg hk] at hb
      show dictGet (deepMergeEntries (deepMergeStep a k0 v0) t) k = _
      apply ih _ hnd' hb
      rwa [dictGet_deepMergeStep_other _ _ _ _ (fun heq => hk heq.symm)]

/-- C5: for every defaults mapping and profile mapping, `_deep_merge` is
right-biased and recurses only when both the current and the incoming
value for a key are mappings; otherwise the incoming value replaces the
current one outright (sequences, scalars and enums are fully replaced,
never merged element-wise); merging `{a:{x:1,y:2}}` with `{a:{y:3}}`
yields `{a:{x:1,y:3}}` and merging `{a:[1,2]}` with `{a:[3]}` yields
`{a:[3]}`. -/
theorem c5_deep_merge_right_biased :
    (∀ (a b : List (String × Val)) (k : String) (v : Val),
      (b.map Prod.fst).Nodup →
      dictGet b k = some v →
      ((∀ ves, v ≠ Val.vdict ves) ∨ (∀ aes, dictGet a k ≠ some (Val.vdict aes))) →
      dictGet (deepMergeEntries a b) k = some v)
    ∧ (∀ (a b : List (String × Val)) (k : String) (aes ves : List (String × Val)),
      (b.map Prod.fst).Nodup →
      dictGet b k = some (Val.vdict ves) →
      dictGet a k = some (Val.vdict aes) →
      dictGet (deepMergeEntries a b) k = some (Val.vdict (deepMergeEntries aes ves)))
    ∧ (∀ (a b : List (String × Val)) (k : String),
      dictGet b k = none →
      dictGet (deepMergeEntries a b) k = dictGet a k)
    ∧ deepMergeEntries [("a", Val.vdict [("x", Val.vint 1), ("y", Val.vint 2)])]
        [("a", Val.vdict [("y", Val.vint 3)])]
        = [("a", Val.vdict [("x", Val.vint 1), ("y", Val.vint 3)])]
    ∧ deepMergeEntries [("a", Val.vlist [Val.vint 1, Val.vint 2])]
        [("a", Val.vlist [Val.vint 3])]
        = [("a", Val.vlist [Val.vint 3])] :=
  ⟨dictGet_deepMerge_replace, dictGet_deepMerge_recurse, dictGet_deepMerge_none,
   rfl, rfl⟩

/-- Witness for C5 at a concrete input: an incoming list value replaces
the current list outright. -/
theorem c5_deep_merge_right_biased_witness :
    dictGet (deepMergeEntries [("a", Val.vlist [Val.vint 1, Val.vint 2])]
      [("a", Val.vlist [Val.vint 3])]) "a" = some (Val.vlist [Val.vint 3]) :=
  c5_deep_merge_right_biased.1 _ _ _ _ (by simp) rfl
    (Or.inl (fun ves h => Val.noConfusion h))

/-! C6: the host-only URL check. -/

/-- The claim's acceptance predicate, following the spec's words: a scheme
and a host are present and no path, query, or fragment is present. -/
def hostOnlyClaimC6 (url : String) : Bool :=
  let u := urlparse url
  (!(u.scheme = "")) && (!(u.netloc = "")) && u.path = "" && u.query = ""
    && u.fragment = ""

/-- C6 counterexample: `https://api.openai.com/` parses with the non-empty
path `"/"`, so under the claim's "no path present" condition it must be
rejected, yet `is_host_only_url` accepts it — the claimed equivalence is
false at this input. -/
theorem c6_counterexample_trailing_slash :
    is_host_only_url "https://api.openai.com/" = true
    ∧ (urlparse "https://api.openai.com/").path = "/"
    ∧ hostOnlyClaimC6 "https://api.openai.com/" = false := by
  exact ⟨rfl, rfl, rfl⟩

/-- C6 (amended): `is_host_only_url` accepts a URL iff it has a scheme and
a host, its path is empty or exactly `"/"`, and no params, query or
fragment are present; in particular `https://api.openai.com/v1` is
rejected and `https://api.openai.com` is accepted. -/
theorem c6_host_only_check :
    (∀ url : String, is_host_only_url url =
      (let u := urlparse url
       (!(u.scheme = "")) && (!(u.netloc = "")) && (u.path = "" || u.path = "/")
         && u.params = "" && u.query = "" && u.fragment = ""))
    ∧ is_host_only_url "https://api.openai.com/v1" = false
    ∧ is_host_only_url "https://api.openai.com" = true := by
  refine ⟨fun url => ?_, rfl, rfl⟩
  simp only [is_host_only_url]
  by_cases h1 : (urlparse url).scheme = "" <;>
    by_cases h2 : (urlparse url).netloc = "" <;>
      simp [h1, h2]

/-! C4: the two-pass Shutdown Coordinator. -/

/-- Extract the pid of a terminate event. -/
def isTermEvent : SEvent → Option Nat
  | SEvent.term p => some p
  | SEvent.waitT _ _ _ => none
  | SEvent.kill _ => none

theorem filterMap_term_termPhase (l : List SProc) :
    ((l.map termStep).flatten).filterMap isTermEvent
      = (l.filter (fun p => p.running1)).map (fun p => p.pid) := by
  induction l with
  | nil => rfl
  | cons p t ih =>
    by_cases hp : p.running1 <;>
      simp [termStep, hp, isTermEvent, ih, List.filter_cons]

theorem filterMap_term_waitPhase (l : List SProc) :
    ((l.map waitStep).flatten).filterMap isTermEvent = [] := by
  induction l with
  | nil => rfl
  | cons p t ih =>
    by_cases h2 : p.running2 <;> by_cases hg : p.gracefulExit <;>
      simp [waitStep, h2, hg, isTermEvent, ih]

/-- The terminate signals issued by `shutdown_all` are exactly the pids of
the still-running handles in reverse start order. -/
theorem shutdown_all_term_order (ps : List SProc) :
    (shutdown_all ps).filterMap isTermEvent
      = (ps.reverse.filter (fun p => p.running1)).map (fun p => p.pid) := by
  rw [shutdown_all, List.filterMap_append, filterMap_term_termPhase,
    filterMap_term_waitPhase, List.append_nil]

/-- C4: `shutdown_all` is two-pass — first it sends a terminate signal to
every still-running process iterating the handles in reverse start order,
then it iterates again in the same reverse order waiting a bounded 5
seconds per process and force-killing any process still alive; for start
order [A,B,C] (pids 1,2,3) the terminate signals are [C,B,A], and
already-exited processes are not signalled. -/
theorem c4_shutdown_two_pass :
    (∀ ps : List SProc,
      shutdown_all ps
        = (ps.reverse.map termStep).flatten ++ (ps.reverse.map waitStep).flatten)
    ∧ (∀ ps : List SProc,
      (shutdown_all ps).filterMap isTermEvent
        = (ps.reverse.filter (fun p => p.running1)).map (fun p => p.pid))
    ∧ (∀ (ps : List SProc) (p : SProc),
      (ps.map (fun q => q.pid)).Nodup → p ∈ ps → p.running1 = false →
      SEvent.term p.pid ∉ shutdown_all ps)
    ∧ (∀ (ps : List SProc) (p : SProc), p ∈ ps → p.running2 = true →
      SEvent.waitT p.pid 5 (!p.gracefulExit) ∈ shutdown_all ps)
    ∧ (∀ (ps : List SProc) (p : SProc), p ∈ ps → p.running2 = true →
      p.gracefulExit = false → SEvent.kill p.pid ∈ shutdown_all ps)
    ∧ shutdown_all [⟨1, true, true, true⟩, ⟨2, true, true, true⟩, ⟨3, true, true, true⟩]
        = [SEvent.term 3, SEvent.term 2, SEvent.term 1,
           SEvent.waitT 3 5 false, SEvent.waitT 2 5 false, SEvent.waitT 1 5 false] := by
  refine ⟨fun ps => rfl, shutdown_all_term_order, ?_, ?_, ?_, rfl⟩
  · intro ps p hnd hp hrun hmem
    have hpid : p.pid ∈ (shutdown_all ps).filterMap isTermEvent :=
      List.mem_filterMap.mpr ⟨SEvent.term p.pid, hmem, rfl⟩
    rw [shutdown_all_term_order] at hpid
    obtain ⟨q, hq, hqe⟩ := List.mem_map.mp hpid
    have hq' := List.mem_filter.mp hq
    have hqps : q ∈ ps := List.mem_reverse.mp hq'.1
    have : q = p := List.inj_on_of_nodup_map hnd hqps hp hqe
    rw [this] at hq'
    rw [hrun] at hq'
    exact Bool.false_ne_true (by simpa using hq'.2)
  · intro ps p hp h2
    have hev : SEvent.waitT p.pid 5 (!p.gracefulExit) ∈ waitStep p := by
      by_cases hg : p.gracefulExit <;> simp [waitStep, h2, hg]
    refine List.mem_append.mpr (Or.inr ?_)
    exact List.mem_flatten.mpr ⟨waitStep p,
      List.mem_map.mpr ⟨p, List.mem_reverse.mpr hp, rfl⟩, hev⟩
  · intro ps p hp h2 hg
    have hev : SEvent.kill p.pid ∈ waitStep p := by simp [waitStep, h2, hg]
    refine List.mem_append.mpr (Or.inr ?_)
    exact List.mem_flatten.mpr ⟨waitStep p,
      List.mem_map.mpr ⟨p, List.mem_reverse.mpr hp, rfl⟩, hev⟩

/-- Witness for C4 at a concrete input: the straggler (pid 2, which does
not exit within its 5s wait window) is force-killed. -/
theorem c4_shutdown_two_pass_witness :
    SEvent.kill 2 ∈ shutdown_all
      [⟨1, true, true, true⟩, ⟨2, true, true, false⟩] :=
  c4_shutdown_two_pass.2.2.2.2.1 _ ⟨2, true, true, false⟩ (by decide) rfl rfl

/-! C8: the environment builder. -/

theorem envGet_envSet_self (e : List (String × String)) (k v : String) :
    envGet (envSet e k v) k = some v := by
  induction e with
  | nil => simp [envSet, envGet]
  | cons hd t ih =>
    obtain ⟨k', v'⟩ := hd
    by_cases hk : k' = k
    · simp [envSet, hk, envGet]
    · simp [envSet, hk, envGet, ih]

theorem envGet_envSet_other (e : List (String × String)) (k k' v : String)
    (h : k' ≠ k) : envGet (envSet e k v) k' = envGet e k' := by
  induction e with
  | nil => simp [envSet, envGet, Ne.symm h]
  | cons hd t ih =>
    obtain ⟨k0, v0⟩ := hd
    by_cases hk : k0 = k
    · have hne : ¬ k0 = k' := fun he => h (he.symm.trans hk)
      simp [envSet, hk, envGet, hne, Ne.symm h]
    · simp [envSet, hk, envGet, ih]

theorem envGet_append_single_self (e : List (String × String)) (k v : String)
    (h : envGet e k = none) : envGet (e ++ [(k, v)]) k = some v := by
  induction e with
  | nil => simp [envGet]
  | cons hd t ih =>
    obtain ⟨k0, v0⟩ := hd
    by_cases hk : k0 = k
    · simp [envGet, hk] at h
    · simp only [envGet, if_neg hk] at h
      simp [envGet, hk, ih h]

theorem envGet_append_single_other (e : List (String × String)) (k k' v : String)
    (h : k' ≠ k) : envGet (e ++ [(k, v)]) k' = envGet e k' := by
  induction e with
  | nil => simp [envGet, Ne.symm h]
  | cons hd t ih =>
    obtain ⟨k0, v0⟩ := hd
    by_cases hk : k0 = k'
    · simp [envGet, hk]
    · simp [envGet, hk, ih]

theorem envGet_envSetdefault_self (e : List (String × String)) (k v : String) :
    envGet (envSetdefault e k v) k =
      (match envGet e k with
       | some x => some x
       | Option.none => some v) := by
  cases hg : envGet e k with
  | some x => simp [envSetdefault, hg]
  | none => simp [envSetdefault, hg, envGet_append_single_self e k v hg]

theorem envGet_envSetdefault_other (e : List (String × String)) (k k' v : String)
    (h : k' ≠ k) : envGet (envSetdefault e k v) k' = envGet e k' := by
  cases hg : envGet e k with
  | some x => simp [envSetdefault, hg]
  | none => simp [envSetdefault, hg, envGet_append_single_other e k k' v h]

theorem build_env_BASE_URL (base : List (String × String)) (cfg : Config) :
    envGet (build_env base cfg) "BASE_URL" =
      (match envGet base "BASE_URL" with
       | some x => some x
       | Option.none =>
         if cfg.proxy.enabled && !(cfg.proxy.kind = ProxyKind.none) then
           some ("http://" ++ cfg.proxy.listen_host ++ ":" ++ toString cfg.proxy.listen_port)
         else Option.none) := by
  rw [build_env]
  by_cases hc : (cfg.proxy.enabled && !(cfg.proxy.kind = ProxyKind.none)) = true
  · simp only [hc, if_true]
    rw [envGet_envSetdefault_self,
      envGet_envSet_other _ _ _ _ (by decide),
      envGet_envSet_other _ _ _ _ (by decide),
      envGet_envSet_other _ _ _ _ (by decide)]
  · simp only [hc, if_false, Bool.false_eq_true]
    rw [envGet_envSet_other _ _ _ _ (by decide),
      envGet_envSet_other _ _ _ _ (by decide),
      envGet_envSet_other _ _ _ _ (by decide)]
    cases envGet base "BASE_URL" <;> rfl

theorem envGet_build_env_other (base : List (String × String)) (cfg : Config)
    (k : String) (h1 : k ≠ "AGENT_PROVIDER") (h2 : k ≠ "MODEL_PROVIDER")
    (h3 : k ≠ "TRACING_API") (h4 : k ≠ "BASE_URL") :
    envGet (build_env base cfg) k = envGet base k := by
  rw [build_env]
  by_cases hc : (cfg.proxy.enabled && !(cfg.proxy.kind = ProxyKind.none)) = true
  · simp only [hc, if_true]
    rw [envGet_envSetdefault_other _ _ _ _ h4,
      envGet_envSet_other _ _ _ _ h3, envGet_envSet_other _ _ _ _ h2,
      envGet_envSet_other _ _ _ _ h1]
  · simp only [hc, if_false, Bool.false_eq_true]
    rw [envGet_envSet_other _ _ _ _ h3, envGet_envSet_other _ _ _ _ h2,
      envGet_envSet_other _ _ _ _ h1]

theorem envGet_upEnvBase_other (base : List (String × String)) (cfg : Config)
    (sd cd : List (String × Val)) (k : String)
    (h1 : k ≠ "AGENT_PROVIDER") (h2 : k ≠ "MODEL_PROVIDER")
    (h3 : k ≠ "TRACING_API") (h4 : k ≠ "BASE_URL")
    (h5 : k ≠ "MCP_AGENT_PROVIDER") (h6 : k ≠ "MCP_SERVER_VARIANT")
    (h7 : k ≠ "MCP_CLIENT_VARIANT") (h8 : k ≠ "MCP_TRANSPORT")
    (h9 : k ≠ "MCP_CLIENT_CONFIG") :
    envGet (upEnvBase base cfg sd cd) k = envGet base k := by
  rw [upEnvBase]
  cases alookup cd "client_path" with
  | some v =>
    by_cases hv : pyTruthy v = true
    · simp only [hv, if_true]
      rw [envGet_envSet_other _ _ _ _ h9, envGet_envSet_other _ _ _ _ h8,
        envGet_envSet_other _ _ _ _ h7, envGet_envSet_other _ _ _ _ h6,
        envGet_envSet_other _ _ _ _ h5, envGet_build_env_other _ _ _ h1 h2 h3 h4]
    · simp only [hv, if_false, Bool.false_eq_true]
      rw [envGet_envSet_other _ _ _ _ h8, envGet_envSet_other _ _ _ _ h7,
        envGet_envSet_other _ _ _ _ h6, envGet_envSet_other _ _ _ _ h5,
        envGet_build_env_other _ _ _ h1 h2 h3 h4]
  | none =>
    rw [envGet_envSet_other _ _ _ _ h8, envGet_envSet_other _ _ _ _ h7,
      envGet_envSet_other _ _ _ _ h6, envGet_envSet_other _ _ _ _ h5,
      envGet_build_env_other _ _ _ h1 h2 h3 h4]

theorem envGet_upEnvBase_TRANSPORT (base : List (String × String)) (cfg : Config)
    (sd cd : List (String × Val)) :
    envGet (upEnvBase base cfg sd cd) "MCP_TRANSPORT"
      = some (pyStrOpt (alookup sd "type")) := by
  simp only [upEnvBase]
  cases alookup cd "client_path" with
  | some v =>
    by_cases hv : pyTruthy v = true
    · simp only [hv, if_true]
      rw [envGet_envSet_other _ _ _ _ (by decide), envGet_envSet_self]
    · simp only [hv, if_false, Bool.false_eq_true]
      rw [envGet_envSet_self]
  | none => rw [envGet_envSet_self]

theorem envGet_upEnvBase_SERVER_VARIANT (base : List (String × String)) (cfg : Config)
    (sd cd : List (String × Val)) :
    envGet (upEnvBase base cfg sd cd) "MCP_SERVER_VARIANT"
      = some cfg.mcp_server_variant := by
  simp only [upEnvBase]
  cases alookup cd "client_path" with
  | some v =>
    by_cases hv : pyTruthy v = true
    · simp only [hv, if_true]
      rw [envGet_envSet_other _ _ _ _ (by decide),
        envGet_envSet_other _ _ _ _ (by decide),
        envGet_envSet_other _ _ _ _ (by decide), envGet_envSet_self]
    · simp only [hv, if_false, Bool.false_eq_true]
      rw [envGet_envSet_other _ _ _ _ (by decide),
        envGet_envSet_other _ _ _ _ (by decide), envGet_envSet_self]
  | none =>
    rw [envGet_envSet_other _ _ _ _ (by decide),
      envGet_envSet_other _ _ _ _ (by decide), envGet_envSet_self]

theorem envGet_upEnvBase_CLIENT_VARIANT (base : List (String × String)) (cfg : Config)
    (sd cd : List (String × Val)) :
    envGet (upEnvBase base cfg sd cd) "MCP_CLIENT_VARIANT"
      = some cfg.mcp_client_variant := by
  simp only [upEnvBase]
  cases alookup cd "client_path" with
  | some v =>
    by_cases hv : pyTruthy v = true
    · simp only [hv, if_true]
      rw [envGet_envSet_other _ _ _ _ (by decide),
        envGet_envSet_other _ _ _ _ (by decide), envGet_envSet_self]
    · simp only [hv, if_false, Bool.false_eq_true]
      rw [envGet_envSet_other _ _ _ _ (by decide), envGet_envSet_self]
  | none => rw [envGet_envSet_other _ _ _ _ (by decide), envGet_envSet_self]

theorem envGet_upEnvBase_AGENT_PROVIDER (base : List (String × String)) (cfg : Config)
    (sd cd : List (String × Val)) :
    envGet (upEnvBase base cfg sd cd) "MCP_AGENT_PROVIDER"
      = some cfg.agent_provider.toStr := by
  simp only [upEnvBase]
  cases alookup cd "client_path" with
  | some v =>
    by_cases hv : pyTruthy v = true
    · simp only [hv, if_true]
      rw [envGet_envSet_other _ _ _ _ (by decide),
        envGet_envSet_other _ _ _ _ (by decide),
        envGet_envSet_other _ _ _ _ (by decide),
        envGet_envSet_other _ _ _ _ (by decide), envGet_envSet_self]
    · simp only [hv, if_false, Bool.false_eq_true]
      rw [envGet_envSet_other _ _ _ _ (by decide),
        envGet_envSet_other _ _ _ _ (by decide),
        envGet_envSet_other _ _ _ _ (by decide), envGet_envSet_self]
  | none =>
    rw [envGet_envSet_other _ _ _ _ (by decide),
      envGet_envSet_other _ _ _ _ (by decide),
      envGet_envSet_other _ _ _ _ (by decide), envGet_envSet_self]

theorem envGet_upEnvBase_BASE_URL (base : List (String × String)) (cfg : Config)
    (sd cd : List (String × Val)) :
    envGet (upEnvBase base cfg sd cd) "BASE_URL"
      = (match envGet base "BASE_URL" with
         | some x => some x
         | Option.none =>
           if cfg.proxy.enabled && !(cfg.proxy.kind = ProxyKind.none) then
             some ("http://" ++ cfg.proxy.listen_host ++ ":" ++ toString cfg.proxy.listen_port)
           else Option.none) := by
  simp only [upEnvBase]
  cases alookup cd "client_path" with
  | some v =>
    by_cases hv : pyTruthy v = true
    · simp only [hv, if_true]
      rw [envGet_envSet_other _ _ _ _ (by decide),
        envGet_envSet_other _ _ _ _ (by decide),
        envGet_envSet_other _ _ _ _ (by decide),
        envGet_envSet_other _ _ _ _ (by decide),
        envGet_envSet_other _ _ _ _ (by decide), build_env_BASE_URL]
    · simp only [hv, if_false, Bool.false_eq_true]
      rw [envGet_envSet_other _ _ _ _ (by decide),
        envGet_envSet_other _ _ _ _ (by decide),
        envGet_envSet_other _ _ _ _ (by decide),
        envGet_envSet_other _ _ _ _ (by decide), build_env_BASE_URL]
  | none =>
    rw [envGet_envSet_other _ _ _ _ (by decide),
      envGet_envSet_other _ _ _ _ (by decide),
      envGet_envSet_other _ _ _ _ (by decide),
      envGet_envSet_other _ _ _ _ (by decide), build_env_BASE_URL]

theorem envGet_upEnvBase_CLIENT_CONFIG (base : List (String × String)) (cfg : Config)
    (sd cd : List (String × Val)) (u : Val)
    (hu : alookup cd "client_path" = some u) (ht : pyTruthy u = true) :
    envGet (upEnvBase base cfg sd cd) "MCP_CLIENT_CONFIG" = some (pyStrVal u) := by
  simp only [upEnvBase, hu, ht, if_true]
  exact envGet_envSet_self _ _ _

/-- A config with the proxy disabled and a stdio client command. -/
def cfgStdio : Config :=
  { client := { cmd := ["echo", "ok"] }, proxy := { enabled := false } }

/-- A config relying on the proxy defaults (enabled, mitmproxy,
127.0.0.1:8002). -/
def cfgProxyDefaults : Config := { client := { cmd := ["echo", "ok"] } }

/-- A config with the proxy enabled but of kind `none`. -/
def cfgProxyNone : Config :=
  { client := { cmd := ["run"] },
    proxy := { enabled := true, kind := ProxyKind.none } }

/-- A stdio MCP server definition. -/
def sdStdio : List (String × Val) :=
  [("type", Val.vstr "stdio"), ("cmd", Val.vlist [Val.vstr "server"])]

/-- A stdio MCP client definition with a client config path. -/
def cdStdio : List (String × Val) :=
  [("type", Val.vstr "stdio"), ("client_path", Val.vstr "client.json")]

/-- The environment produced for the stdio fixtures over an empty base. -/
def envC8 : List (String × String) :=
  [("AGENT_PROVIDER", "pydanticai"), ("MODEL_PROVIDER", "openai"),
   ("TRACING_API", "http://127.0.0.1:7000"),
   ("MCP_AGENT_PROVIDER", "pydanticai"), ("MCP_SERVER_VARIANT", "stdio"),
   ("MCP_CLIENT_VARIANT", "stdio"), ("MCP_TRANSPORT", "stdio"),
   ("MCP_CLIENT_CONFIG", "client.json")]

/-- C8 counterexample: with `proxy.enabled = true` but `proxy.kind = none`
and no `BASE_URL` in the base environment, the claim requires `BASE_URL`
to be set to the proxy listen address, yet the code leaves it unset
(`build_env` also requires `kind != "none"`). -/
theorem c8_base_url_counterexample :
    cfgProxyNone.proxy.enabled = true
    ∧ envGet ([] : List (String × String)) "BASE_URL" = Option.none
    ∧ upEnv [] cfgProxyNone sdStdio cdStdio = Except.ok envC8
    ∧ envGet envC8 "BASE_URL" = Option.none :=
  ⟨rfl, rfl, rfl, rfl⟩

/-- C8 (amended): the environment builder sets `BASE_URL` to the local
proxy listen address iff the proxy is enabled *with kind ≠ none* and
`BASE_URL` is absent from the base environment, never overwriting an
existing value; the derived `MCP_*` keys are always set (overwriting any
prior value), `MCP_SERVER_URL` is set when the transport is http and
`MCP_CLIENT_CONFIG` when a truthy client config path exists; all other
keys keep their base-environment values (the base map itself, being a
value, is unchanged — `build_env` copies it). -/
theorem c8_env_builder (base : List (String × String)) (cfg : Config)
    (sd cd : List (String × Val)) (env : List (String × String))
    (henv : upEnv base cfg sd cd = Except.ok env) :
    envGet env "BASE_URL"
      = (match envGet base "BASE_URL" with
         | some x => some x
         | Option.none =>
           if cfg.proxy.enabled && !(cfg.proxy.kind = ProxyKind.none) then
             some ("http://" ++ cfg.proxy.listen_host ++ ":" ++ toString cfg.proxy.listen_port)
           else Option.none)
    ∧ envGet env "MCP_TRANSPORT" = some (pyStrOpt (alookup sd "type"))
    ∧ envGet env "MCP_SERVER_VARIANT" = some cfg.mcp_server_variant
    ∧ envGet env "MCP_CLIENT_VARIANT" = some cfg.mcp_client_variant
    ∧ envGet env "MCP_AGENT_PROVIDER" = some cfg.agent_provider.toStr
    ∧ (∀ u, alookup cd "client_path" = some u → pyTruthy u = true →
        envGet env "MCP_CLIENT_CONFIG" = some (pyStrVal u))
    ∧ (∀ u, pyStrOpt (alookup sd "type") = "http" → alookup sd "url" = some u →
        envGet env "MCP_SERVER_URL" = some (pyStrVal u))
    ∧ (∀ k, k ∉ ["AGENT_PROVIDER", "MODEL_PROVIDER", "TRACING_API", "BASE_URL",
        "MCP_AGENT_PROVIDER", "MCP_SERVER_VARIANT", "MCP_CLIENT_VARIANT",
        "MCP_TRANSPORT", "MCP_CLIENT_CONFIG", "MCP_SERVER_URL"] →
        envGet env k = envGet base k) := by
  have hc : (pyStrOpt (alookup sd "type") ≠ "http" ∧ env = upEnvBase base cfg sd cd)
      ∨ (∃ u, pyStrOpt (alookup sd "type") = "http" ∧ alookup sd "url" = some u
          ∧ pyTruthy u = true
          ∧ env = envSet (upEnvBase base cfg sd cd) "MCP_SERVER_URL" (pyStrVal u)) := by
    simp only [upEnv] at henv
    by_cases hst : pyStrOpt (alookup sd "type") = "http"
    · rw [if_pos hst] at henv
      cases hu : alookup sd "url" with
      | none => rw [hu] at henv; exact absurd henv (by simp)
      | some u =>
        rw [hu] at henv
        by_cases htu : pyTruthy u = true
        · simp only [htu, if_true, Except.ok.injEq] at henv
          exact Or.inr ⟨u, hst, rfl, htu, henv.symm⟩
        · have hfu : pyTruthy u = false := by simpa using htu
          simp [hfu] at henv
    · rw [if_neg hst] at henv
      injection henv with h
      exact Or.inl ⟨hst, h.symm⟩
  rcases hc with ⟨hst, henv'⟩ | ⟨u, hst, hu, htu, henv'⟩
  · subst henv'
    refine ⟨envGet_upEnvBase_BASE_URL _ _ _ _, envGet_upEnvBase_TRANSPORT _ _ _ _,
      envGet_upEnvBase_SERVER_VARIANT _ _ _ _, envGet_upEnvBase_CLIENT_VARIANT _ _ _ _,
      envGet_upEnvBase_AGENT_PROVIDER _ _ _ _, ?_, ?_, ?_⟩
    · intro v hv ht; exact envGet_upEnvBase_CLIENT_CONFIG _ _ _ _ _ hv ht
    · intro v hhttp _; exact absurd hhttp hst
    · intro k hk
      have n : ∀ x ∈ ["AGENT_PROVIDER", "MODEL_PROVIDER", "TRACING_API", "BASE_URL",
          "MCP_AGENT_PROVIDER", "MCP_SERVER_VARIANT", "MCP_CLIENT_VARIANT",
          "MCP_TRANSPORT", "MCP_CLIENT_CONFIG", "MCP_SERVER_URL"], k ≠ x :=
        fun x hx he => hk (he ▸ hx)
      exact envGet_upEnvBase_other _ _ _ _ _
        (n _ (by simp)) (n _ (by simp)) (n _ (by simp)) (n _ (by simp))
        (n _ (by simp)) (n _ (by simp)) (n _ (by simp)) (n _ (by simp))
        (n _ (by simp))
  · subst henv'
    refine ⟨?_, ?_, ?_, ?_, ?_, ?_, ?_, ?_⟩
    · rw [envGet_envSet_other _ _ _ _ (by decide)]
      exact envGet_upEnvBase_BASE_URL _ _ _ _
    · rw [envGet_envSet_other _ _ _ _ (by decide)]
      exact envGet_upEnvBase_TRANSPORT _ _ _ _
    · rw [envGet_envSet_other _ _ _ _ (by decide)]
      exact envGet_upEnvBase_SERVER_VARIANT _ _ _ _
    · rw [envGet_envSet_other _ _ _ _ (by decide)]
      exact envGet_upEnvBase_CLIENT_VARIANT _ _ _ _
    · rw [envGet_envSet_other _ _ _ _ (by decide)]
      exact envGet_upEnvBase_AGENT_PROVIDER _ _ _ _
    · intro v hv ht
      rw [envGet_envSet_other _ _ _ _ (by decide)]
      exact envGet_upEnvBase_CLIENT_CONFIG _ _ _ _ _ hv ht
    · intro v _ hv
      rw [hu] at hv
      injection hv with hv'
      rw [← hv']
      exact envGet_envSet_self _ _ _
    · intro k hk
      have n : ∀ x ∈ ["AGENT_PROVIDER", "MODEL_PROVIDER", "TRACING_API", "BASE_URL",
          "MCP_AGENT_PROVIDER", "MCP_SERVER_VARIANT", "MCP_CLIENT_VARIANT",
          "MCP_TRANSPORT", "MCP_CLIENT_CONFIG", "MCP_SERVER_URL"], k ≠ x :=
        fun x hx he => hk (he ▸ hx)
      rw [envGet_envSet_other _ _ _ _ (n _ (by simp))]
      exact envGet_upEnvBase_other _ _ _ _ _
        (n _ (by simp)) (n _ (by simp)) (n _ (by simp)) (n _ (by simp))
        (n _ (by simp)) (n _ (by simp)) (n _ (by simp)) (n _ (by simp))
        (n _ (by simp))

/-- Witness for C8 at a concrete input: the derived `MCP_TRANSPORT` key is
set to the resolved transport type. -/
theorem c8_env_builder_witness :
    envGet envC8 "MCP_TRANSPORT" = some "stdio" :=
  (c8_env_builder [] cfgStdio sdStdio cdStdio envC8 rfl).2.1

/-! C1, C2, C3, C7: lifecycle and resolution behaviour of `up`. -/

/-- Standard lookups: openai reverse target, pydanticai stdio variants. -/
def lkStd : Lookups :=
  { model_reverse_target := [("openai", "https://api.openai.com")],
    mcp := [("pydanticai",
      [("servers", [("stdio", sdStdio)]),
       ("clients", [("stdio", cdStdio)])])] }

/-- Lookups whose reverse target carries a path. -/
def lkBadTarget : Lookups :=
  { model_reverse_target := [("openai", "https://api.openai.com/v1")],
    mcp := [("pydanticai",
      [("servers", [("stdio", sdStdio)]),
       ("clients", [("stdio", cdStdio)])])] }

/-- A client definition typed `http` (used for the transport mismatch). -/
def cdHttpTyped : List (String × Val) :=
  [("type", Val.vstr "http"), ("client_path", Val.vstr "client.json")]

/-- Lookups with a stdio-typed server and an http-typed client under the
same variant keys. -/
def lkMismatch : Lookups :=
  { model_reverse_target := [("openai", "https://api.openai.com")],
    mcp := [("pydanticai",
      [("servers", [("stdio", sdStdio)]),
       ("clients", [("stdio", cdHttpTyped)])])] }

/-- A world where every probe succeeds and the client exits 0. -/
def wAllGood : World :=
  { tracingReady := true, proxyReady := true, mcpReady := true, clientExit := 0 }

/-- A world where the tracing port never opens. -/
def wTracingDown : World :=
  { tracingReady := false, proxyReady := true, mcpReady := true, clientExit := 0 }

/-- A world where the proxy port never opens. -/
def wProxyDown : World :=
  { tracingReady := true, proxyReady := false, mcpReady := true, clientExit := 0 }

/-- C1: the claim (and the spec's failure policy) requires every
readiness-probe failure to shut down all already-started processes in
reverse order before a non-zero exit.  The code instead exits through
`die` — `SystemExit(1)` with no `shutdown_all` call — so the started
processes are left running: with the tracing port never opening, the
tracing process is spawned and never terminated; with the proxy port
never opening, both tracing and proxy are spawned and never terminated. -/
theorem c1_readiness_failure_skips_shutdown :
    upTrace cfgStdio lkStd wTracingDown
      = [Event.installHandlers, Event.spawn Stage.tracing,
         Event.probe "127.0.0.1" 7000 false,
         Event.dieMsg tracingFailedMsg, Event.exited 1]
    ∧ (∀ procs, Event.callShutdownAll procs ∉ upTrace cfgStdio lkStd wTracingDown)
    ∧ upTrace cfgProxyDefaults lkStd wProxyDown
      = [Event.installHandlers, Event.spawn Stage.tracing,
         Event.probe "127.0.0.1" 7000 true, Event.spawn Stage.proxy,
         Event.probe "127.0.0.1" 8002 false,
         Event.dieMsg proxyFailedMsg, Event.exited 1]
    ∧ (∀ procs, Event.callShutdownAll procs ∉ upTrace cfgProxyDefaults lkStd wProxyDown) := by
  have h1 : upTrace cfgStdio lkStd wTracingDown
      = [Event.installHandlers, Event.spawn Stage.tracing,
         Event.probe "127.0.0.1" 7000 false,
         Event.dieMsg tracingFailedMsg, Event.exited 1] := rfl
  have h2 : upTrace cfgProxyDefaults lkStd wProxyDown
      = [Event.installHandlers, Event.spawn Stage.tracing,
         Event.probe "127.0.0.1" 7000 true, Event.spawn Stage.proxy,
         Event.probe "127.0.0.1" 8002 false,
         Event.dieMsg proxyFailedMsg, Event.exited 1] := rfl
  refine ⟨h1, ?_, h2, ?_⟩
  · intro procs; rw [h1]; simp
  · intro procs; rw [h2]; simp

theorem lifecycleTrace_head_cons (cfg : Config) (r : Resolved) (w : World) :
    ∃ rest, lifecycleTrace cfg r w = Event.installHandlers :: rest :=
  ⟨stagesTrace cfg r w, rfl⟩

/-- Every `shutdown_all` invocation recorded by the client stage uses
exactly the handle list the supervisor accumulated — which the client's
own process was never appended to. -/
theorem clientTrace_shutdown_procs (w : World) (procs q : List Stage)
    (h : Event.callShutdownAll q ∈ clientTrace w procs) : q = procs := by
  simp [clientTrace] at h
  exact h

theorem mcpAndClientTrace_shutdown_procs (r : Resolved) (w : World)
    (procs q : List Stage)
    (h : Event.callShutdownAll q ∈ mcpAndClientTrace r w procs) :
    q = procs ∨ q = procs ++ [Stage.mcpServer] := by
  simp only [mcpAndClientTrace] at h
  repeat' split at h
  all_goals simp [clientTrace, dieEvents] at h
  all_goals first
    | exact Or.inl h
    | exact Or.inr h

/-- In every `up` trace, every handle list handed to `shutdown_all`
excludes the client stage: `run_client` never appends the client process
to `procs`. -/
theorem upTrace_shutdown_no_client (cfg : Config) (lk : Lookups) (w : World)
    (q : List Stage) (h : Event.callShutdownAll q ∈ upTrace cfg lk w) :
    Stage.client ∉ q := by
  cases hres : resolveRun cfg lk with
  | error m => simp [upTrace, hres, dieEvents] at h
  | ok r =>
    simp only [upTrace, hres, lifecycleTrace, List.mem_cons] at h
    rcases h with h | h
    · exact absurd h (by simp)
    · simp only [stagesTrace] at h
      split at h
      · simp [dieEvents] at h
      · split at h
        · split at h
          · simp [dieEvents] at h
          · split at h
            · simp [dieEvents] at h
            · simp only [List.cons_append, List.nil_append, List.mem_cons] at h
              rcases h with h | h | h | h | h
              · exact absurd h (by simp)
              · exact absurd h (by simp)
              · exact absurd h (by simp)
              · exact absurd h (by simp)
              · rcases mcpAndClientTrace_shutdown_procs _ _ _ _ h with hq | hq <;>
                  subst hq <;> simp
        · simp only [List.cons_append, List.nil_append, List.mem_cons] at h
          rcases h with h | h | h
          · exact absurd h (by simp)
          · exact absurd h (by simp)
          · rcases mcpAndClientTrace_shutdown_procs _ _ _ _ h with hq | hq <;>
              subst hq <;> simp

/-- C2: the signal handlers are installed before any spawn and, for both
the interrupt and the terminate signal, run `shutdown_all` on the
supervisor's handle list and exit with code 130 (reverse-order terminate
signals over that list).  But the claim's "full reverse-start-order
shutdown of all started processes" fails on the code: `run_client` never
appends the foreground client to `procs`, so every handle list handed to
`shutdown_all` excludes the client stage — a signal delivered while the
spawned client is running shuts down only tracing/proxy/mcp and exits,
leaving the started client running.  The concrete trace shows a run that
spawns the client while its shutdown list is only
`[tracing, mcpServer]`. -/
theorem c2_client_left_out_of_signal_shutdown :
    (∀ (cfg : Config) (lk : Lookups) (w : World) (i : Nat) (s : Stage),
      (upTrace cfg lk w)[i]? = some (Event.spawn s) →
      ∃ j, j < i ∧ (upTrace cfg lk w)[j]? = some Event.installHandlers)
    ∧ (∀ (sig : PySignal) (procs : List Stage),
      handleSignal sig procs = [Event.callShutdownAll procs, Event.exited 130])
    ∧ (∀ ps : List SProc,
      (shutdown_all ps).filterMap isTermEvent
        = (ps.reverse.filter (fun p => p.running1)).map (fun p => p.pid))
    ∧ (∀ (cfg : Config) (lk : Lookups) (w : World) (q : List Stage),
      Event.callShutdownAll q ∈ upTrace cfg lk w → Stage.client ∉ q)
    ∧ upTrace cfgStdio lkStd wAllGood
        = [Event.installHandlers, Event.spawn Stage.tracing,
           Event.probe "127.0.0.1" 7000 true, Event.spawn Stage.mcpServer,
           Event.sleepGrace, Event.spawn Stage.client, Event.clientExited 0,
           Event.callShutdownAll [Stage.tracing, Stage.mcpServer],
           Event.exited 0] := by
  refine ⟨?_, fun sig procs => by cases sig <;> rfl, shutdown_all_term_order,
    upTrace_shutdown_no_client, rfl⟩
  intro cfg lk w i s hi
  cases hres : resolveRun cfg lk with
  | error m =>
    simp only [upTrace, hres] at hi
    rcases i with _ | i
    · simp [dieEvents] at hi
    · rcases i with _ | i
      · simp [dieEvents] at hi
      · simp [dieEvents] at hi
  | ok r =>
    obtain ⟨rest, hrest⟩ := lifecycleTrace_head_cons cfg r w
    simp only [upTrace, hres] at hi ⊢
    cases i with
    | zero => rw [hrest] at hi; simp at hi
    | succ n => exact ⟨0, Nat.succ_pos n, by rw [hrest]; simp⟩

/-- Witness for C2 at a concrete input: the handle list shut down after
the client of the stdio run — the very list a signal handler would pass
to `shutdown_all` during the client phase — does not contain the spawned
client stage. -/
theorem c2_client_left_out_of_signal_shutdown_witness :
    Stage.client ∉ [Stage.tracing, Stage.mcpServer] :=
  c2_client_left_out_of_signal_shutdown.2.2.2.1 cfgStdio lkStd wAllGood
    [Stage.tracing, Stage.mcpServer] (by decide)

/-- True when some spawn event occurs strictly before a later `die`
diagnostic in the trace. -/
def spawnBeforeDie : List Event → Bool
  | [] => false
  | Event.spawn _ :: t =>
    t.any (fun e => match e with | Event.dieMsg _ => true | _ => false)
  | _ :: t => spawnBeforeDie t

/-- C3 counterexample: with the proxy enabled and the resolved reverse
target `https://api.openai.com/v1` (which has a path), the run does fail
with the malformed-reverse-target diagnostic, but a process (the tracing
stage) has already been spawned before the failure is reported —
contradicting "reported before any process is spawned". -/
theorem c3_reported_after_spawn_counterexample :
    Event.dieMsg proxyTargetMsg ∈ upTrace cfgProxyDefaults lkBadTarget wAllGood
    ∧ spawnBeforeDie (upTrace cfgProxyDefaults lkBadTarget wAllGood) = true :=
  ⟨by decide, rfl⟩

/-- C3 (amended): when the proxy is enabled and the resolved reverse
target is not host-only, the run fails with the malformed-reverse-target
diagnostic at proxy startup — after the tracing process has been spawned
and become ready, but before the proxy process is spawned. -/
theorem c3_reverse_target_checked_at_proxy_start (cfg : Config) (lk : Lookups)
    (w : World) (r : Resolved) (rt : String)
    (hres : resolveRun cfg lk = Except.ok r)
    (hrt : r.reverse_target = some rt)
    (hbad : is_host_only_url rt = false)
    (hen : cfg.proxy.enabled = true) (hkind : cfg.proxy.kind ≠ ProxyKind.none)
    (htr : w.tracingReady = true) :
    upTrace cfg lk w
      = [Event.installHandlers, Event.spawn Stage.tracing,
         Event.probe cfg.tracing_api.host cfg.tracing_api.port true,
         Event.dieMsg proxyTargetMsg, Event.exited 1]
    ∧ Event.spawn Stage.proxy ∉ upTrace cfg lk w
    ∧ (∀ procs, Event.callShutdownAll procs ∉ upTrace cfg lk w) := by
  have htrace : upTrace cfg lk w
      = [Event.installHandlers, Event.spawn Stage.tracing,
         Event.probe cfg.tracing_api.host cfg.tracing_api.port true,
         Event.dieMsg proxyTargetMsg, Event.exited 1] := by
    simp only [upTrace, hres, lifecycleTrace, stagesTrace, htr, hen, hrt, hkind,
      Option.getD_some, Bool.not_true, Bool.not_false, Bool.true_and,
      hbad, if_true, if_false, Bool.false_eq_true]
    rfl
  refine ⟨htrace, ?_, ?_⟩
  · rw [htrace]; simp
  · intro procs; rw [htrace]; simp

/-- The resolution result for the bad-target fixtures. -/
def rBadTarget : Resolved :=
  { reverse_target := some "https://api.openai.com/v1",
    server_def := sdStdio, client_def := cdStdio,
    server_type := "stdio", http_url := Option.none }

/-- Witness for C3 (amended) at a concrete input. -/
theorem c3_reverse_target_checked_at_proxy_start_witness :
    upTrace cfgProxyDefaults lkBadTarget wAllGood
      = [Event.installHandlers, Event.spawn Stage.tracing,
         Event.probe cfgProxyDefaults.tracing_api.host
           cfgProxyDefaults.tracing_api.port true,
         Event.dieMsg proxyTargetMsg, Event.exited 1]
    ∧ Event.spawn Stage.proxy ∉ upTrace cfgProxyDefaults lkBadTarget wAllGood
    ∧ (∀ procs, Event.callShutdownAll procs ∉ upTrace cfgProxyDefaults lkBadTarget wAllGood) :=
  c3_reverse_target_checked_at_proxy_start cfgProxyDefaults lkBadTarget wAllGood
    rBadTarget "https://api.openai.com/v1" rfl rfl rfl rfl (by decide) rfl

/-- C7: when the resolved server variant's transport type differs from the
resolved client variant's, `up` dies with the transport-mismatch
diagnostic naming both types, before any process is spawned, and never
reconciles the mismatch. -/
theorem c7_transport_mismatch (cfg : Config) (lk : Lookups) (w : World)
    (am : List (String × List (String × List (String × Val))))
    (sd cd : List (String × Val))
    (hproxy : cfg.proxy.enabled = true →
      optStrTruthy (alookup lk.model_reverse_target cfg.model_provider.toStr) = true)
    (hag : alookup lk.mcp cfg.agent_provider.toStr = some am)
    (hane : am.isEmpty = false)
    (hsd : alookup ((alookup am "servers").getD []) cfg.mcp_server_variant = some sd)
    (hsne : sd.isEmpty = false)
    (hcd : alookup ((alookup am "clients").getD []) cfg.mcp_client_variant = some cd)
    (hcne : cd.isEmpty = false)
    (hne : pyStrOpt (alookup sd "type") ≠ pyStrOpt (alookup cd "type")) :
    upTrace cfg lk w
      = [Event.dieMsg (mismatchMsg (pyStrOpt (alookup sd "type"))
           (pyStrOpt (alookup cd "type"))), Event.exited 1]
    ∧ mismatchMsg (pyStrOpt (alookup sd "type")) (pyStrOpt (alookup cd "type"))
        = "MCP server/client transport mismatch: server=" ++ sglq
          ++ pyStrOpt (alookup sd "type") ++ sglq ++ " vs client=" ++ sglq
          ++ pyStrOpt (alookup cd "type") ++ sglq ++ ". Pick matching variants."
    ∧ (∀ s, Event.spawn s ∉ upTrace cfg lk w) := by
  have hcond : (cfg.proxy.enabled
      && !optStrTruthy (alookup lk.model_reverse_target cfg.model_provider.toStr)) = false := by
    cases he : cfg.proxy.enabled
    · rfl
    · simp [hproxy he]
  have hres : resolveRun cfg lk
      = Except.error (mismatchMsg (pyStrOpt (alookup sd "type"))
          (pyStrOpt (alookup cd "type"))) := by
    simp only [resolveRun, hcond, hag, hane, hsd, hsne, hcd, hcne, hne,
      Bool.false_eq_true, if_false, if_true]
    simp [hne]
  have htrace : upTrace cfg lk w
      = [Event.dieMsg (mismatchMsg (pyStrOpt (alookup sd "type"))
          (pyStrOpt (alookup cd "type"))), Event.exited 1] := by
    simp only [upTrace, hres]
    rfl
  refine ⟨htrace, rfl, ?_⟩
  intro s; rw [htrace]; simp

/-- Witness for C7 at a concrete input: stdio server vs http client. -/
theorem c7_transport_mismatch_witness :
    upTrace cfgStdio lkMismatch wAllGood
      = [Event.dieMsg (mismatchMsg (pyStrOpt (alookup sdStdio "type"))
           (pyStrOpt (alookup cdHttpTyped "type"))), Event.exited 1]
    ∧ mismatchMsg (pyStrOpt (alookup sdStdio "type")) (pyStrOpt (alookup cdHttpTyped "type"))
        = "MCP server/client transport mismatch: server=" ++ sglq
          ++ pyStrOpt (alookup sdStdio "type") ++ sglq ++ " vs client=" ++ sglq
          ++ pyStrOpt (alookup cdHttpTyped "type") ++ sglq ++ ". Pick matching variants."
    ∧ (∀ s, Event.spawn s ∉ upTrace cfgStdio lkMismatch wAllGood) :=
  c7_transport_mismatch cfgStdio lkMismatch wAllGood
    [("servers", [("stdio", sdStdio)]), ("clients", [("stdio", cdHttpTyped)])]
    sdStdio cdHttpTyped (fun h => absurd h (by decide)) rfl rfl rfl rfl rfl rfl
    (by decide)

/-! C9, C10: the `load_all` error paths. -/

/-- A stdio client definition that also carries the launch command the
`Config.client` schema requires. -/
def cdC9 : List (String × Val) :=
  [("type", Val.vstr "stdio"), ("client_path", Val.vstr "client.json"),
   ("cmd", Val.vlist [Val.vstr "client"])]

/-- The raw `lookups` section of the concrete fixture documents. -/
def rawLookupsVal : Val :=
  Val.vdict [
    ("model_reverse_target", Val.vdict [("openai", Val.vstr "https://api.openai.com")]),
    ("mcp", Val.vdict [("pydanticai", Val.vdict [
       ("servers", Val.vdict [("stdio", Val.vdict sdStdio)]),
       ("clients", Val.vdict [("stdio", Val.vdict cdC9)])])])]

/-- The entries of a complete configuration document with one profile
`fast`. -/
def rawC9Entries : List (String × Val) :=
  [("defaults", Val.vdict [
      ("agent_provider", Val.vstr "pydanticai"),
      ("mcp_client_variant", Val.vstr "stdio"),
      ("proxy", Val.vdict [("enabled", Val.vbool false)])]),
   ("profiles", Val.vdict [("fast", Val.vdict [("model_provider", Val.vstr "anthropic")])]),
   ("lookups", rawLookupsVal)]

/-- True when a load result is a success. -/
def isOkLoad : Except LoadErr (Config × Lookups) → Bool
  | Except.ok _ => true
  | Except.error _ => false

/-- C9 counterexample: the empty string is a profile name absent from the
document's profiles section, yet `load_all` succeeds instead of failing
with a ConfigError — `if profile:` treats an empty profile name like no
profile at all — and the run goes on to spawn processes. -/
theorem c9_empty_profile_counterexample :
    dictGet [("fast", Val.vdict [("model_provider", Val.vstr "anthropic")])] "" = Option.none
    ∧ isOkLoad (load_all (Val.vdict rawC9Entries) (some "") "orchestrator.yaml") = true
    ∧ Event.spawn Stage.tracing
        ∈ upFull (Val.vdict rawC9Entries) (some "") "orchestrator.yaml" wAllGood :=
  ⟨rfl, rfl, by decide⟩

/-- C9 (amended): for every configuration document and every *non-empty*
profile name absent from the document's profiles section, `load_all` fails
with the ConfigError diagnostic naming the profile, before any process is
spawned and before any merge into the defaults is performed. -/
theorem c9_missing_profile_config_error (res : List (String × Val)) (p path : String)
    (w : World)
    (hp : p ≠ "")
    (hdef : dictGet res "defaults" = Option.none
      ∨ ∃ d, dictGet res "defaults" = some (Val.vdict d))
    (hprof : dictGet res "profiles" = Option.none
      ∨ ∃ ps, dictGet res "profiles" = some (Val.vdict ps) ∧ dictGet ps p = Option.none) :
    load_all (Val.vdict res) (some p) path
      = Except.error (LoadErr.dieErr (profileNotFoundMsg p path))
    ∧ upFull (Val.vdict res) (some p) path w
      = [Event.dieMsg (profileNotFoundMsg p path), Event.exited 1]
    ∧ (∀ s, Event.spawn s ∉ upFull (Val.vdict res) (some p) path w) := by
  have hprep : prepCfgDict res (some p) path
      = Except.error (LoadErr.dieErr (profileNotFoundMsg p path)) := by
    rcases hdef with hd | ⟨d, hd⟩ <;> rcases hprof with hq | ⟨ps, hq, hqp⟩
    · simp only [prepCfgDict, hd, hq, hp, if_false]
    · simp only [prepCfgDict, hd, hq, hqp, hp, if_false]
    · simp only [prepCfgDict, hd, hq, hp, if_false]
    · simp only [prepCfgDict, hd, hq, hqp, hp, if_false]
  have hload : load_all (Val.vdict res) (some p) path
      = Except.error (LoadErr.dieErr (profileNotFoundMsg p path)) := by
    simp only [load_all, hprep]
  have hup : upFull (Val.vdict res) (some p) path w
      = [Event.dieMsg (profileNotFoundMsg p path), Event.exited 1] := by
    simp only [upFull, hload]
    rfl
  refine ⟨hload, hup, ?_⟩
  intro s; rw [hup]; simp

/-- Witness for C9 (amended) at a concrete input: profile `missing`. -/
theorem c9_missing_profile_config_error_witness :
    load_all (Val.vdict rawC9Entries) (some "missing") "orchestrator.yaml"
      = Except.error (LoadErr.dieErr (profileNotFoundMsg "missing" "orchestrator.yaml"))
    ∧ upFull (Val.vdict rawC9Entries) (some "missing") "orchestrator.yaml" wAllGood
      = [Event.dieMsg (profileNotFoundMsg "missing" "orchestrator.yaml"), Event.exited 1]
    ∧ (∀ s, Event.spawn s
        ∉ upFull (Val.vdict rawC9Entries) (some "missing") "orchestrator.yaml" wAllGood) :=
  c9_missing_profile_config_error rawC9Entries "missing" "orchestrator.yaml" wAllGood
    (by decide) (Or.inr ⟨_, rfl⟩) (Or.inr ⟨_, rfl, rfl⟩)

/-- C10: `load_all` indexes the lookup tables before validating the
merged configuration: when the merged defaults omit `agent_provider` or
`mcp_client_variant`, or the validated lookups lack the selected agent's
entry, its `clients` mapping, or the chosen client variant key, the
client-definition lookup raises an uncaught `KeyError` instead of a
reported configuration error — even though the `Config` schema declares
defaults for those fields. -/
theorem c10_client_lookup_before_validation (res : List (String × Val))
    (profile : Option String) (path : String) (cfgd : List (String × Val)) (lk : Lookups)
    (h1 : prepCfgDict res profile path = Except.ok cfgd)
    (h2 : lookupsStep res = Except.ok lk) :
    (dictGet cfgd "agent_provider" = Option.none →
      load_all (Val.vdict res) profile path
        = Except.error (LoadErr.keyErr "agent_provider"))
    ∧ (∀ a, dictGet cfgd "agent_provider" = some (Val.vstr a) →
        alookup lk.mcp a = Option.none →
        load_all (Val.vdict res) profile path = Except.error (LoadErr.keyErr a))
    ∧ (∀ a am, dictGet cfgd "agent_provider" = some (Val.vstr a) →
        alookup lk.mcp a = some am → alookup am "clients" = Option.none →
        load_all (Val.vdict res) profile path = Except.error (LoadErr.keyErr "clients"))
    ∧ (∀ a am cl, dictGet cfgd "agent_provider" = some (Val.vstr a) →
        alookup lk.mcp a = some am → alookup am "clients" = some cl →
        dictGet cfgd "mcp_client_variant" = Option.none →
        load_all (Val.vdict res) profile path
          = Except.error (LoadErr.keyErr "mcp_client_variant"))
    ∧ (∀ a am cl cv, dictGet cfgd "agent_provider" = some (Val.vstr a) →
        alookup lk.mcp a = some am → alookup am "clients" = some cl →
        dictGet cfgd "mcp_client_variant" = some (Val.vstr cv) →
        alookup cl cv = Option.none →
        load_all (Val.vdict res) profile path = Except.error (LoadErr.keyErr cv))
    ∧ (∃ c, validateConfig [("client", Val.vdict [("cmd", Val.vlist [Val.vstr "client"])])]
        = Except.ok c ∧ c.agent_provider = AgentProvider.pydanticai
        ∧ c.mcp_client_variant = "stdio") := by
  have hload : ∀ e, clientLookup cfgd lk = Except.error e →
      load_all (Val.vdict res) profile path = Except.error e := by
    intro e he
    simp only [load_all, h1, h2, he]
  refine ⟨?_, ?_, ?_, ?_, ?_, ⟨{ client := { cmd := ["client"] } }, rfl, rfl, rfl⟩⟩
  · intro ha
    exact hload _ (by simp only [clientLookup, ha])
  · intro a ha hm
    exact hload _ (by simp only [clientLookup, ha, keyOfVal, hm])
  · intro a am ha hm hc
    exact hload _ (by simp only [clientLookup, ha, keyOfVal, hm, hc])
  · intro a am cl ha hm hc hv
    exact hload _ (by simp only [clientLookup, ha, keyOfVal, hm, hc, hv])
  · intro a am cl cv ha hm hc hv hcl
    exact hload _ (by simp only [clientLookup, ha, keyOfVal, hm, hc, hv, hcl])

/-- The entries of a document whose `defaults` section is empty — the
`Config` schema would accept it (every field except `client` has a
default), but the client-definition lookup crashes first. -/
def rawNoAgentEntries : List (String × Val) :=
  [("defaults", Val.vdict []), ("lookups", rawLookupsVal)]

/-- The validated lookups of the fixture documents. -/
def lkC9 : Lookups :=
  { model_reverse_target := [("openai", "https://api.openai.com")],
    mcp := [("pydanticai",
      [("servers", [("stdio", sdStdio)]), ("clients", [("stdio", cdC9)])])] }

/-- Witness for C10 at a concrete input: a document whose merged defaults
omit `agent_provider` makes `load_all` raise `KeyError: agent_provider`. -/
theorem c10_client_lookup_before_validation_witness :
    load_all (Val.vdict rawNoAgentEntries) Option.none "orchestrator.yaml"
      = Except.error (LoadErr.keyErr "agent_provider") :=
  (c10_client_lookup_before_validation rawNoAgentEntries Option.none "orchestrator.yaml"
    [] lkC9 rfl rfl).1 rfl
